import Mathlib

/-!
# A verification model of `src/main.js` (class `Experience`)

The page controller is embedded as pure state-passing functions.

* A JavaScript number is an IEEE 754 double.  Every finite double is a
  rational, so numbers are values of `ℚ`, and each product, sum or difference
  the program forms is rounded to the nearest double (`roundDouble`).  The
  decimal literals that enter such arithmetic or a comparison (`0.0002`,
  `0.02`) are rounded likewise.  A `wheel` event carries a finite `deltaY` and
  the stored progress stays in the unit interval, so no operation of the
  handlers leaves the finite range; infinities and NaN are not represented.
* End values, durations and stagger of an animation request that the source
  writes as literals are kept as written.
* The page is a flat list of DOM nodes in document order; a node reference is
  the position of the node in that list.  Dereferencing `null` (an element the
  markup does not provide) raises a `TypeError` in the browser; here the
  handler returns `none`.
* `gsap.to` and `speak` start work that proceeds against the wall clock.  The
  model records the requests in the order they are issued.
-/

namespace Mysite

/-! ## DOM nodes -/

/-- A DOM node, reduced to the attributes the program reads or writes:
tag name, `id`, `classList` and the inline `style.opacity`. -/
structure Element where
  tag : String
  id : String
  classList : List String
  opacity : Option ℚ
deriving DecidableEq

/-- The document: every node of the page, in document order. -/
abbrev Document := List Element

/-- Method `DOMTokenList.add`. -/
def classAdd (c : String) (cl : List String) : List String :=
  if c ∈ cl then cl else cl ++ [c]

/-- Method `DOMTokenList.remove`. -/
def classRemove (c : String) (cl : List String) : List String :=
  cl.filter (fun x => decide (x ≠ c))

/-- Method `DOMTokenList.toggle(token, force)`. -/
def classToggle (c : String) (force : Bool) (cl : List String) : List String :=
  if force then classAdd c cl else classRemove c cl

/-- Statement `el.classList.add(c)`. -/
def Element.addClass (c : String) (e : Element) : Element :=
  { e with classList := classAdd c e.classList }

/-- Statement `el.classList.remove(c)`. -/
def Element.removeClass (c : String) (e : Element) : Element :=
  { e with classList := classRemove c e.classList }

/-- Statement `el.classList.toggle(c, force)`. -/
def Element.toggleClass (c : String) (force : Bool) (e : Element) : Element :=
  { e with classList := classToggle c force e.classList }

/-- Statement `el.style.opacity = v`. -/
def Element.setOpacity (v : ℚ) (e : Element) : Element :=
  { e with opacity := some v }

/-- Reference to the first node, in document order, that satisfies `p`;
`none` plays the part of `null`. -/
def findRef (p : Element → Bool) : Document → Option Nat
  | [] => none
  | e :: es => if p e then some 0 else (findRef p es).map (fun r => r + 1)

/-- Mutation of the node behind reference `r`. -/
def modifyAt (f : Element → Element) : Nat → Document → Document
  | _, [] => []
  | 0, e :: es => f e :: es
  | r + 1, e :: es => e :: modifyAt f r es

/-- Call `document.getElementById(id)`. -/
def getElementById (doc : Document) (id : String) : Option Nat :=
  findRef (fun e => e.id == id) doc

/-- Property `document.body`. -/
def documentBody (doc : Document) : Option Nat :=
  findRef (fun e => e.tag == "body") doc

/-- Call `document.querySelector('.' + cls)`. -/
def querySelector (doc : Document) (cls : String) : Option Nat :=
  findRef (fun e => e.classList.contains cls) doc

/-- Loop `document.querySelectorAll('.' + cls).forEach(el => f(el))`. -/
def forEachSelected (cls : String) (f : Element → Element) (doc : Document) : Document :=
  doc.map (fun e => if e.classList.contains cls then f e else e)

/-- Whether the element with the given id carries class `c`. -/
def hasClassById (doc : Document) (id c : String) : Bool :=
  match getElementById doc id with
  | some r =>
    match doc[r]? with
    | some e => e.classList.contains c
    | none => false
  | none => false

/-- Inline opacity of the element with the given id. -/
def opacityById (doc : Document) (id : String) : Option ℚ :=
  match getElementById doc id with
  | some r =>
    match doc[r]? with
    | some e => e.opacity
    | none => none
  | none => none

/-! ## Numbers -/

/-- Position of the leading binary digit of `n` (0 for `n < 2`); `fuel` bounds
the number of halvings. -/
def log2Fuel : Nat → Nat → Nat
  | 0, _ => 0
  | fuel + 1, n => if n < 2 then 0 else log2Fuel fuel (n / 2) + 1

/-- The integer `k` with `2 ^ k ≤ n / d < 2 ^ (k + 1)`, for positive `n`, `d`. -/
def floorLog2 (n d : Nat) : Int :=
  let k : Int := (log2Fuel n n : Int) - (log2Fuel d d : Int)
  if 0 ≤ k then (if d * 2 ^ k.toNat ≤ n then k else k - 1)
  else (if d ≤ n * 2 ^ (-k).toNat then k else k - 1)

/-- The integer nearest to `n / d`, a tie going to the even neighbour. -/
def roundHalfEven (n d : Nat) : Nat :=
  let f := n / d
  let r := n % d
  if 2 * r < d then f else if d < 2 * r then f + 1 else if f % 2 = 0 then f else f + 1

/-- Significand and exponent of the double nearest to `n / d`: 53 significant
bits, exponent not below that of the subnormal numbers. -/
def roundCore (n d : Nat) : Nat × Int :=
  let e := if floorLog2 n d - 52 < -1074 then -1074 else floorLog2 n d - 52
  let m :=
    if 0 ≤ e then roundHalfEven n (d * 2 ^ e.toNat) else roundHalfEven (n * 2 ^ (-e).toNat) d
  (m, e)

/-- The double nearest to `q` (round to nearest, ties to even): the result of
a JavaScript arithmetic operation whose exact value is `q`, and the value of a
decimal literal `q`. -/
def roundDouble (q : ℚ) : ℚ :=
  if q = 0 then 0
  else
    let c := roundCore q.num.natAbs q.den
    let r : ℚ := (c.1 : ℚ) * 2 ^ c.2
    if q < 0 then -r else r

/-! ## Animation requests -/

/-- The objects the program hands to `gsap.to`. -/
inductive TweenTarget where
  | cameraPosition
  | cameraGroupRotation
  | npcPosition
  | npcMaterialColor
  | pointLightColor
  | gridMaterial
  | studioMaterial (i : Nat)
  | binaryMaterials (count : Nat)
deriving DecidableEq

/-- One call `gsap.to(target, vars)`: the numeric end values, the duration in
seconds, and the optional `ease` and `stagger` entries. -/
structure Tween where
  target : TweenTarget
  vars : List (String × ℚ)
  duration : ℚ
  ease : Option String
  stagger : Option ℚ
deriving DecidableEq

/-! ## Controller state -/

/-- The fields of the `Experience` instance and of the page that the event
handlers read or write. -/
structure Experience where
  currentMode : String
  progress : ℚ
  document : Document
  tweens : List Tween
  spoken : List String
  terminalInput : String
  terminalOutput : List String
deriving DecidableEq

/-- Number of meshes `setupEnvironment` adds to `studioGroup`. -/
def studioCount : Nat := 25

/-- Number of meshes `setupNPC` adds to `binaryGroup`. -/
def binaryCount : Nat := 200

/-- Call `gsap.to(target, vars)`. -/
def Experience.gsapTo (t : Tween) (s : Experience) : Experience :=
  { s with tweens := s.tweens ++ [t] }

/-- Method `speak(text)`: looks up the `.npc-text` node and starts the
character-by-character reveal of `text`. -/
def speak (text : String) (s : Experience) : Option Experience := do
  let _el ← querySelector s.document "npc-text"
  some { s with spoken := s.spoken ++ [text] }

/-! ## Scroll / narrative controller -/

/-- The `layers` array of `updateExperience`. -/
def layers : List String :=
  ["layer-hero", "layer-profile", "layer-skills", "layer-tools", "layer-projects",
    "layer-achievements", "layer-contact"]

/-- The `activeIndex` constant of `updateExperience`:
`Math.min(Math.floor(progress * layers.length), layers.length - 1)`. -/
def activeIndex (progress : ℚ) : ℤ :=
  min ⌊roundDouble (progress * (layers.length : ℚ))⌋ ((layers.length : ℤ) - 1)

/-- The loop `layers.forEach((id, index) => ...)` of `updateExperience`. -/
def markLayers (active : ℤ) : List (Nat × String) → Document → Option Document
  | [], doc => some doc
  | (index, id) :: rest, doc => do
    let el ← getElementById doc id
    let doc1 :=
      if (index : ℤ) = active then modifyAt (Element.addClass "active") el doc
      else modifyAt (Element.removeClass "active") el doc
    markLayers active rest doc1

/-- Method `updateExperience()`. -/
def updateExperience (s : Experience) : Option Experience := do
  let targetZ := roundDouble (10 - roundDouble (s.progress * 120))
  let s1 := s.gsapTo ⟨.cameraPosition, [("z", targetZ)], 1.5, some "power2.out", none⟩
  let doc ← markLayers (activeIndex s1.progress) layers.enum s1.document
  if s1.progress > roundDouble 0.02 then do
    let hint ← getElementById doc "scroll-hint"
    some { s1 with document := modifyAt (Element.setOpacity 0) hint doc }
  else do
    let hint ← getElementById doc "scroll-hint"
    some { s1 with document := modifyAt (Element.setOpacity 0.5) hint doc }

/-- The `wheel` listener installed by `setupEventListeners`. -/
def onWheel (deltaY : ℚ) (s : Experience) : Option Experience :=
  let s1 := { s with
    progress := roundDouble (s.progress + roundDouble (deltaY * roundDouble 0.0002)) }
  let s2 := { s1 with progress := max 0 (min s1.progress 1) }
  updateExperience s2

/-- A sequence of `wheel` events, handled one after the other. -/
def wheelSequence : List ℚ → Experience → Option Experience
  | [], s => some s
  | d :: ds, s => (onWheel d s).bind (wheelSequence ds)

/-! ## Mode controller -/

/-- Method `switchMode(mode)`. -/
def switchMode (mode : String) (s : Experience) : Option Experience :=
  if mode = s.currentMode then some s
  else do
    let s1 := { s with currentMode := mode }
    let isCyber : Bool := decide (mode = "cyber")
    let b ← documentBody s1.document
    let doc1 := modifyAt (Element.toggleClass "studio-mode" (!isCyber)) b s1.document
    let tc ← getElementById doc1 "toggle-cyber"
    let doc2 := modifyAt (Element.toggleClass "active" isCyber) tc doc1
    let ts ← getElementById doc2 "toggle-studio"
    let doc3 := modifyAt (Element.toggleClass "active" (!isCyber)) ts doc2
    let doc4 := forEachSelected "cyber-only" (Element.toggleClass "hidden" (!isCyber)) doc3
    let doc5 := forEachSelected "studio-only" (Element.toggleClass "hidden" isCyber) doc4
    let s2 := { s1 with document := doc5 }
    let s3 := s2.gsapTo ⟨.npcMaterialColor,
      [("r", if isCyber then 0 else 1), ("g", if isCyber then 0.95 else 0),
        ("b", if isCyber then 1 else 1)], 1.5, none, none⟩
    let s4 := s3.gsapTo ⟨.pointLightColor,
      [("r", if isCyber then 0 else 1), ("g", if isCyber then 0.95 else 0),
        ("b", if isCyber then 1 else 1)], 1.5, none, none⟩
    let s5 := s4.gsapTo ⟨.gridMaterial, [("opacity", if isCyber then 1 else 0)], 1, none, none⟩
    let s6 := (List.range studioCount).foldl
      (fun acc i =>
        acc.gsapTo ⟨.studioMaterial i, [("opacity", if isCyber then 0 else 0.8)], 1, none, none⟩)
      s5
    let s7 ← speak
      (if isCyber then "Security matrix active. Recon modules online."
        else "Creative engine initialized. Systems operational.") s6
    let tw ← getElementById s7.document "terminal-wrapper"
    some { s7 with document := modifyAt (Element.toggleClass "hidden" (!isCyber)) tw s7.document }

/-! ## Terminal -/

/-- Code points removed by `String.prototype.trim`: the ECMAScript `WhiteSpace`
and `LineTerminator` productions. -/
def isWhiteSpace (c : Char) : Bool :=
  decide (c.toNat ∈ [9, 10, 11, 12, 13, 32, 160, 5760, 8232, 8233, 8239, 8287, 12288, 65279])
    || (decide (8192 ≤ c.toNat) && decide (c.toNat ≤ 8202))

/-- Lower-casing of one character: `A`–`Z` and the Kelvin sign (U+212A), the
characters whose lower case is a Basic Latin letter.  Other characters are
left as they are; the lower case of such a character is outside Basic Latin,
so this never makes an input a command or keeps it from being one. -/
def lowerChar (c : Char) : Char :=
  if 65 ≤ c.toNat ∧ c.toNat ≤ 90 then Char.ofNat (c.toNat + 32)
  else if c.toNat = 8490 then 'k' else c

/-- Method `String.prototype.toLowerCase`, through `lowerChar`. -/
def toLowerCase (s : String) : String :=
  String.mk (s.data.map lowerChar)

/-- Method `String.prototype.trim`. -/
def trim (s : String) : String :=
  String.mk ((s.data.dropWhile isWhiteSpace).reverse.dropWhile isWhiteSpace).reverse

/-- Method `write(text, out)`: the output node gains a `div`, and the string
assigned to its `innerHTML` is recorded.  The browser parses that string as
HTML; the record keeps the source string, and the nodes the parser builds from
markup inside `text` are not represented (see `opensElement`). -/
def write (text : String) (out : List String) : List String :=
  out ++ ["<span>[wolf@system]</span>: " ++ text]

/-- Text of the line the `help` command writes. -/
def helpText : String := "Commands: status, whoami, skills, clear, secret"

/-- Method `handleCmd(cmd, out)`. -/
def handleCmd (cmd : String) (s : Experience) : Option Experience :=
  let s1 := { s with terminalOutput := write cmd s.terminalOutput }
  if cmd = "help" then
    some { s1 with terminalOutput := write helpText s1.terminalOutput }
  else if cmd = "whoami" then
    some { s1 with terminalOutput := write "AIwolfie - Dual-Identity Architect" s1.terminalOutput }
  else if cmd = "skills" then
    some { s1 with
      terminalOutput := write "VULN: XSS, IDOR, SSRF, RCE, RECON, ASYNC_PY" s1.terminalOutput }
  else if cmd = "scan" then
    speak "Data strings isolated. 0x0101."
      (s1.gsapTo ⟨.binaryMaterials binaryCount, [("opacity", 0.8)], 1, none, some 0.01⟩)
  else if cmd = "secret" ∨ cmd = "0101" then do
    let s2 ← speak "ACCESS GRANTED. Welcome, Operator. Curiosity confirmed." s1
    some (s2.gsapTo ⟨.cameraPosition, [("z", -180)], 3, some "power4.inOut", none⟩)
  else if cmd = "clear" then
    some { s1 with terminalOutput := [] }
  else some s1

/-- The `onkeydown` handler of the terminal input. -/
def onKeyDown (key : String) (s : Experience) : Option Experience :=
  if key = "Enter" then do
    let cmd := trim (toLowerCase s.terminalInput)
    let s1 ← handleCmd cmd s
    some { s1 with terminalInput := "" }
  else some s

/-- The command names the dispatcher of `handleCmd` compares against. -/
def vocabulary : List String :=
  ["help", "whoami", "skills", "scan", "secret", "0101", "clear"]

/-- Splits a character sequence at every `", "`; `acc` holds the piece being
read, in reverse. -/
def splitNames (acc : List Char) : List Char → List (List Char)
  | [] => [acc.reverse]
  | ',' :: ' ' :: rest => acc.reverse :: splitNames [] rest
  | c :: rest => splitNames (c :: acc) rest

/-- The names listed on a `Commands: a, b, c` line: the text after the leading
`"Commands: "`, split at `", "`. -/
def listedNames (line : String) : List String :=
  if line.data.take 10 = "Commands: ".data then
    (splitNames [] (line.data.drop 10)).map String.mk
  else []

/-- Whether the HTML tokenizer, reading `cs` as the content of an element,
meets a `<` followed by an ASCII letter, that is, opens a start tag. -/
def opensElementAux : List Char → Bool
  | [] => false
  | c :: rest =>
    match rest with
    | [] => false
    | d :: _ => (c == '<' && d.isAlpha) || opensElementAux rest

/-- Whether `text`, assigned to `innerHTML`, is parsed into at least one
element instead of character data only. -/
def opensElement (text : String) : Bool :=
  opensElementAux text.data

/-- A command line that is markup: an image whose `error` handler clicks the
studio toggle. -/
def markupCommand : String :=
  "<img src=x onerror=window['toggle-studio'].click()>"

/-- State the echo line of `handleCmd` alone leaves behind. -/
def echoOnly (cmd : String) (s : Experience) : Experience :=
  { s with terminalOutput := write cmd s.terminalOutput }

/-! ## Session start -/

/-- State the constructor leaves behind on a page with nodes `page`, terminal
input `input` and the children `out` of the output node: mode `cyber`,
progress 0, the boot banner written, no animation issued. -/
def fresh (page : Document) (input : String) (out : List String) : Experience :=
  { currentMode := "cyber"
    progress := 0
    document := page
    tweens := []
    spoken := []
    terminalInput := input
    terminalOutput := write "WolfShell v3.0 | Status: Connected" out }

/-- The colour triple of a mode: the end values `switchMode(mode)` requests for
the NPC material colour and for the point light colour. -/
def modeColor (mode : String) : List (String × ℚ) :=
  [("r", if mode = "cyber" then 0 else 1), ("g", if mode = "cyber" then 0.95 else 0),
    ("b", if mode = "cyber" then 1 else 1)]

/-- End values of the latest `gsap.to` issued on `t`; `none` while no request
has been issued on it. -/
def colorTarget (t : TweenTarget) (s : Experience) : Option (List (String × ℚ)) :=
  ((s.tweens.filter (fun tw => decide (tw.target = t))).getLast?).map (fun tw => tw.vars)

/-- The page provides the nodes `updateExperience` dereferences. -/
def ScrollMarkup (doc : Document) : Prop :=
  (∀ id ∈ layers, (getElementById doc id).isSome) ∧ (getElementById doc "scroll-hint").isSome

/-- The page provides the nodes `switchMode` dereferences. -/
def ModeMarkup (doc : Document) : Prop :=
  (documentBody doc).isSome ∧ (getElementById doc "toggle-cyber").isSome ∧
    (getElementById doc "toggle-studio").isSome ∧ (querySelector doc "npc-text").isSome ∧
    (getElementById doc "terminal-wrapper").isSome

/-- What one run of `updateExperience` has established about the page. -/
def Settled (s : Experience) : Prop :=
  (∀ x ∈ layers.enum,
      hasClassById s.document x.2 "active" = decide ((x.1 : ℤ) = activeIndex s.progress)) ∧
    opacityById s.document "scroll-hint" =
      some (if s.progress > roundDouble 0.02 then 0 else 0.5)

/-- A page that provides every node the handlers dereference, laid out for
mode `cyber`, with stale `active` markers on two layers. -/
def samplePage : Document :=
  [ ⟨"body", "", [], none⟩,
    ⟨"button", "toggle-cyber", ["active"], none⟩,
    ⟨"button", "toggle-studio", [], none⟩,
    ⟨"section", "layer-hero", ["layer", "active"], none⟩,
    ⟨"section", "layer-profile", ["layer"], none⟩,
    ⟨"section", "layer-skills", ["layer", "active"], none⟩,
    ⟨"section", "layer-tools", ["layer"], none⟩,
    ⟨"section", "layer-projects", ["layer"], none⟩,
    ⟨"section", "layer-achievements", ["layer"], none⟩,
    ⟨"section", "layer-contact", ["layer"], none⟩,
    ⟨"div", "scroll-hint", [], none⟩,
    ⟨"div", "terminal-wrapper", ["cyber-only"], none⟩,
    ⟨"div", "", ["npc-text"], none⟩,
    ⟨"div", "", ["hidden", "studio-only"], none⟩ ]

/-- A state on the sample page with progress one half. -/
def sampleState : Experience :=
  { currentMode := "cyber"
    progress := 1 / 2
    document := samplePage
    tweens := []
    spoken := []
    terminalInput := ""
    terminalOutput := [] }

/-- A page with the same nodes whose markup carries no state classes: the
initial look is left to the style sheet. -/
def barePage : Document :=
  [ ⟨"body", "", [], none⟩,
    ⟨"button", "toggle-cyber", [], none⟩,
    ⟨"button", "toggle-studio", [], none⟩,
    ⟨"section", "layer-hero", ["layer"], none⟩,
    ⟨"section", "layer-profile", ["layer"], none⟩,
    ⟨"section", "layer-skills", ["layer"], none⟩,
    ⟨"section", "layer-tools", ["layer"], none⟩,
    ⟨"section", "layer-projects", ["layer"], none⟩,
    ⟨"section", "layer-achievements", ["layer"], none⟩,
    ⟨"section", "layer-contact", ["layer"], none⟩,
    ⟨"div", "scroll-hint", [], none⟩,
    ⟨"div", "terminal-wrapper", ["cyber-only"], none⟩,
    ⟨"div", "", ["npc-text"], none⟩,
    ⟨"div", "", ["studio-only"], none⟩ ]

/-- The page after the class toggles of `switchMode`, with the four node
references resolved: body, the two toggle buttons, the terminal wrapper. -/
def switchDocument (isCyber : Bool) (b tc ts tw : Nat) (doc : Document) : Document :=
  modifyAt (Element.toggleClass "hidden" (!isCyber)) tw
    (forEachSelected "studio-only" (Element.toggleClass "hidden" isCyber)
      (forEachSelected "cyber-only" (Element.toggleClass "hidden" (!isCyber))
        (modifyAt (Element.toggleClass "active" (!isCyber)) ts
          (modifyAt (Element.toggleClass "active" isCyber) tc
            (modifyAt (Element.toggleClass "studio-mode" (!isCyber)) b doc)))))

/-- The animation requests one effective `switchMode` issues, in order. -/
def switchTweens (isCyber : Bool) : List Tween :=
  [⟨.npcMaterialColor,
      [("r", if isCyber then 0 else 1), ("g", if isCyber then 0.95 else 0),
        ("b", if isCyber then 1 else 1)], 1.5, none, none⟩,
    ⟨.pointLightColor,
      [("r", if isCyber then 0 else 1), ("g", if isCyber then 0.95 else 0),
        ("b", if isCyber then 1 else 1)], 1.5, none, none⟩,
    ⟨.gridMaterial, [("opacity", if isCyber then 1 else 0)], 1, none, none⟩] ++
  (List.range studioCount).map
    (fun i => ⟨.studioMaterial i, [("opacity", if isCyber then 0 else 0.8)], 1, none, none⟩)

/-- Conditional `el.classList.toggle(c, force)`. -/
def Element.toggleIf (cond : Bool) (c : String) (force : Bool) (e : Element) : Element :=
  if cond then e.toggleClass c force else e

/-- Effect of the class toggles of `switchMode` on one node; the flags tell
whether the node is the body, a toggle button or the terminal wrapper. -/
def switchElement (isCyber isBody isTc isTs isTw : Bool) (e : Element) : Element :=
  let e1 := e.toggleIf isBody "studio-mode" (!isCyber)
  let e2 := e1.toggleIf isTc "active" isCyber
  let e3 := e2.toggleIf isTs "active" (!isCyber)
  let e4 := e3.toggleIf (e3.classList.contains "cyber-only") "hidden" (!isCyber)
  let e5 := e4.toggleIf (e4.classList.contains "studio-only") "hidden" isCyber
  e5.toggleIf isTw "hidden" (!isCyber)

/-- Two nodes agree on tag, id, inline opacity and on the set of classes. -/
def SameClasses (a b : Element) : Prop :=
  a.tag = b.tag ∧ a.id = b.id ∧ a.opacity = b.opacity ∧ ∀ c, c ∈ a.classList ↔ c ∈ b.classList

/-- Whether `document.body` carries class `c`. -/
def bodyHasClass (doc : Document) (c : String) : Bool :=
  match documentBody doc with
  | some r =>
    match doc[r]? with
    | some e => e.classList.contains c
    | none => false
  | none => false

/-- The page markup is laid out for mode `cyber`: no `studio-mode` on the body,
`active` on the cyber toggle only, `hidden` on every `.studio-only` node and
on no `.cyber-only` node nor on the terminal wrapper. -/
def CyberLayout (doc : Document) : Prop :=
  bodyHasClass doc "studio-mode" = false ∧
    hasClassById doc "toggle-cyber" "active" = true ∧
    hasClassById doc "toggle-studio" "active" = false ∧
    hasClassById doc "terminal-wrapper" "hidden" = false ∧
    (∀ e ∈ doc, "cyber-only" ∈ e.classList → "hidden" ∉ e.classList) ∧
    (∀ e ∈ doc, "studio-only" ∈ e.classList → "hidden" ∈ e.classList)

/-! ## Lemmas on the DOM primitives -/

theorem classAdd_mem (c x : String) (cl : List String) :
    x ∈ classAdd c cl ↔ x = c ∨ x ∈ cl := by
  unfold classAdd
  split
  · constructor
    · intro h; exact Or.inr h
    · rintro (h | h)
      · subst h; assumption
      · exact h
  · simp [or_comm]

theorem classRemove_mem (c x : String) (cl : List String) :
    x ∈ classRemove c cl ↔ x ≠ c ∧ x ∈ cl := by
  simp [classRemove, and_comm]

theorem modifyAt_length (f : Element → Element) :
    ∀ (r : Nat) (doc : Document), (modifyAt f r doc).length = doc.length
  | r, [] => by cases r <;> simp [modifyAt]
  | 0, _ :: _ => rfl
  | r + 1, _ :: es => by simp [modifyAt, modifyAt_length f r es]

theorem modifyAt_getElem? (f : Element → Element) :
    ∀ (r : Nat) (doc : Document) (m : Nat),
      (modifyAt f r doc)[m]? = (doc[m]?).map (fun e => if r = m then f e else e)
  | _, [], m => by simp [modifyAt]
  | 0, e :: es, 0 => by simp [modifyAt]
  | 0, e :: es, m + 1 => by simp [modifyAt]
  | r + 1, e :: es, 0 => by simp [modifyAt]
  | r + 1, e :: es, m + 1 => by simp [modifyAt, modifyAt_getElem? f r es m]

theorem findRef_modifyAt (p : Element → Bool) (f : Element → Element)
    (hf : ∀ e, p (f e) = p e) :
    ∀ (r : Nat) (doc : Document), findRef p (modifyAt f r doc) = findRef p doc
  | r, [] => by cases r <;> simp [modifyAt]
  | 0, e :: es => by simp [modifyAt, findRef, hf]
  | r + 1, e :: es => by simp [modifyAt, findRef, findRef_modifyAt p f hf r es]

theorem findRef_map (p : Element → Bool) (f : Element → Element)
    (hf : ∀ e, p (f e) = p e) :
    ∀ doc : Document, findRef p (doc.map f) = findRef p doc
  | [] => rfl
  | e :: es => by simp [findRef, hf, findRef_map p f hf es]

theorem findRef_some (p : Element → Bool) :
    ∀ (doc : Document) (r : Nat), findRef p doc = some r →
      ∃ e, doc[r]? = some e ∧ p e = true
  | [], r, h => by simp [findRef] at h
  | e :: es, r, h => by
    unfold findRef at h
    by_cases hp : p e = true
    · simp [hp] at h
      subst h
      exact ⟨e, by simp, hp⟩
    · simp [hp] at h
      obtain ⟨r', hr', rfl⟩ := h
      obtain ⟨e', he', hpe'⟩ := findRef_some p es r' hr'
      exact ⟨e', by simpa using he', hpe'⟩


theorem getElementById_modifyAt (f : Element → Element) (hf : ∀ e, (f e).id = e.id)
    (r : Nat) (doc : Document) (id : String) :
    getElementById (modifyAt f r doc) id = getElementById doc id :=
  findRef_modifyAt _ f (fun e => by simp [hf]) r doc

theorem getElementById_some (doc : Document) (id : String) (r : Nat)
    (h : getElementById doc id = some r) : ∃ e, doc[r]? = some e ∧ e.id = id := by
  obtain ⟨e, he, hp⟩ := findRef_some _ doc r h
  exact ⟨e, he, by simpa using hp⟩

theorem hasClassById_modifyAt (f : Element → Element) (hf : ∀ e, (f e).id = e.id)
    (hc : ∀ e, (f e).classList = e.classList) (r : Nat) (doc : Document) (id c : String) :
    hasClassById (modifyAt f r doc) id c = hasClassById doc id c := by
  unfold hasClassById
  rw [getElementById_modifyAt f hf]
  cases getElementById doc id with
  | none => rfl
  | some k =>
    simp only [modifyAt_getElem?]
    cases doc[k]? with
    | none => rfl
    | some e =>
      by_cases hk : r = k <;> simp [hk, hc]

theorem markLayers_spec (a : ℤ) :
    ∀ (l : List (Nat × String)) (doc : Document),
      (l.map Prod.snd).Nodup →
      (∀ x ∈ l, (getElementById doc x.2).isSome) →
      ∃ doc', markLayers a l doc = some doc' ∧
        (∀ id, getElementById doc' id = getElementById doc id) ∧
        (∀ x ∈ l, hasClassById doc' x.2 "active" = decide ((x.1 : ℤ) = a)) ∧
        (∀ id r, id ∉ l.map Prod.snd → getElementById doc id = some r → doc'[r]? = doc[r]?)
  | [], doc, _, _ => ⟨doc, rfl, fun _ => rfl, by simp, fun _ _ _ _ => rfl⟩
  | (i0, id0) :: rest, doc, hnd, hex => by
    have hnd' : (rest.map Prod.snd).Nodup := (List.nodup_cons.mp hnd).2
    have hid0 : id0 ∉ rest.map Prod.snd := (List.nodup_cons.mp hnd).1
    obtain ⟨r0, hr0⟩ := Option.isSome_iff_exists.mp (hex (i0, id0) (by simp))
    obtain ⟨e0, he0, he0id⟩ := getElementById_some doc id0 r0 hr0
    let f : Element → Element :=
      if (i0 : ℤ) = a then Element.addClass "active" else Element.removeClass "active"
    have hfid : ∀ e, (f e).id = e.id := by
      intro e; simp only [f]; split <;> rfl
    have hdoc1 : (if (i0 : ℤ) = a then modifyAt (Element.addClass "active") r0 doc
        else modifyAt (Element.removeClass "active") r0 doc) = modifyAt f r0 doc := by
      simp only [f]; split <;> rfl
    have hg1 : ∀ id, getElementById (modifyAt f r0 doc) id = getElementById doc id :=
      fun id => getElementById_modifyAt f hfid r0 doc id
    obtain ⟨doc', hrun, hids, hact, hrest⟩ := markLayers_spec a rest (modifyAt f r0 doc) hnd'
      (fun x hx => by rw [hg1]; exact hex x (List.mem_cons_of_mem _ hx))
    refine ⟨doc', ?_, ?_, ?_, ?_⟩
    · simp only [markLayers, hr0, Option.bind_eq_bind, Option.some_bind, hdoc1]
      exact hrun
    · intro id; rw [hids, hg1]
    · intro x hx
      rcases List.mem_cons.mp hx with rfl | hx
      · have h1 : doc'[r0]? = some (f e0) := by
          rw [hrest id0 r0 hid0 (by rw [hg1]; exact hr0), modifyAt_getElem?, he0]
          simp
        have h2 : getElementById doc' id0 = some r0 := by rw [hids, hg1]; exact hr0
        simp only [hasClassById, h2, h1]
        by_cases hia : (i0 : ℤ) = a
        · simp [f, hia, Element.addClass, classAdd_mem]
        · simp [f, hia, Element.removeClass, classRemove_mem]
      · exact hact x hx
    · intro id r hid hr
      have hid' : id ∉ rest.map Prod.snd := fun h => hid (by simp at h ⊢; exact Or.inr h)
      have hne : id ≠ id0 := fun h => hid (by simp [h])
      rw [hrest id r hid' (by rw [hg1]; exact hr), modifyAt_getElem?]
      obtain ⟨e, he, heid⟩ := getElementById_some doc id r hr
      have hrr : r0 ≠ r := by
        rintro rfl
        rw [he0] at he
        injection he with he
        exact hne (by rw [← heid, ← he, he0id])
      simp [hrr]


theorem layers_enum_nodup : (layers.enum.map Prod.snd).Nodup := by decide

theorem roundDouble_zero : roundDouble 0 = 0 := by
  simp [roundDouble]

theorem roundDouble_nonneg (q : ℚ) (hq : 0 ≤ q) : 0 ≤ roundDouble q := by
  unfold roundDouble
  split
  · exact le_refl _
  · simp only [if_neg (not_lt.mpr hq)]
    positivity

theorem roundDouble_of_div (n d : ℕ) (hn : 0 < n) (hd : 0 < d) (hc : n.Coprime d)
    (q : ℚ) (hq : q = (n : ℚ) / (d : ℚ)) :
    roundDouble q = ((roundCore n d).1 : ℚ) * 2 ^ (roundCore n d).2 := by
  have hq' : q = ((n : ℤ) : ℚ) / ((d : ℤ) : ℚ) := by rw [hq]; simp
  have hnum : q.num = (n : ℤ) := by
    rw [hq']; exact Rat.num_div_eq_of_coprime (by exact_mod_cast hd) (by simpa using hc)
  have hden : q.den = d := by
    have := Rat.den_div_eq_of_coprime (a := (n : ℤ)) (b := (d : ℤ))
      (by exact_mod_cast hd) (by simpa using hc)
    rw [← hq'] at this
    exact_mod_cast this
  have hpos : 0 < q := by rw [hq]; positivity
  unfold roundDouble
  rw [if_neg (ne_of_gt hpos)]
  simp only [if_neg (not_lt.mpr hpos.le), hnum, hden, Int.natAbs_ofNat]

theorem literal_0002 : roundDouble 0.0002 = 7378697629483821 / 36893488147419103232 := by
  rw [roundDouble_of_div 1 5000 (by decide) (by decide) (by decide) _ (by norm_num),
    (by decide : roundCore 1 5000 = (7378697629483821, -65))]
  norm_num

theorem literal_002 : roundDouble 0.02 = 5764607523034235 / 288230376151711744 := by
  rw [roundDouble_of_div 1 50 (by decide) (by decide) (by decide) _ (by norm_num),
    (by decide : roundCore 1 50 = (5764607523034235, -58))]
  norm_num

theorem roundDouble_half : roundDouble (1 / 2) = 1 / 2 := by
  rw [roundDouble_of_div 1 2 (by decide) (by decide) (by decide) _ (by norm_num),
    (by decide : roundCore 1 2 = (4503599627370496, -53))]
  norm_num

theorem roundDouble_seven_halves : roundDouble (1 / 2 * 7) = 7 / 2 := by
  rw [roundDouble_of_div 7 2 (by decide) (by decide) (by decide) _ (by norm_num),
    (by decide : roundCore 7 2 = (7881299347898368, -51))]
  norm_num

theorem wheel_2500 :
    roundDouble (0 + roundDouble (2500 * roundDouble 0.0002)) = 1 / 2 := by
  have h : roundDouble (2500 * roundDouble 0.0002) = 1 / 2 := by
    rw [literal_0002,
      roundDouble_of_div 4611686018427388125 9223372036854775808 (by decide) (by decide)
        (by decide) _ (by norm_num),
      (by decide : roundCore 4611686018427388125 9223372036854775808
        = (4503599627370496, -53))]
    norm_num
  rw [h, zero_add, roundDouble_half]

theorem activeIndex_eq (p : ℚ) : activeIndex p = min ⌊roundDouble (p * 7)⌋ 6 := by
  simp [activeIndex, layers]

/-- At the double just below one seventh (the progress one wheel event of
`deltaY = 714.2857142857142` stores) the product with 7 rounds up to 1, and
the second layer is selected. -/
theorem activeIndex_seventh :
    activeIndex (2573485501354569 / 18014398509481984) = 1 := by
  rw [activeIndex_eq,
    roundDouble_of_div 18014398509481983 18014398509481984 (by decide) (by decide)
      (by decide) _ (by norm_num),
    (by decide : roundCore 18014398509481983 18014398509481984 = (9007199254740992, -53))]
  norm_num

theorem activeIndex_bounds (p : ℚ) (hp : 0 ≤ p) : 0 ≤ activeIndex p ∧ activeIndex p ≤ 6 := by
  rw [activeIndex_eq]
  constructor
  · exact le_min (Int.floor_nonneg.mpr (roundDouble_nonneg _ (by positivity))) (by norm_num)
  · exact min_le_right _ _

theorem opacityById_set (doc : Document) (id : String) (r : Nat) (v : ℚ)
    (h : getElementById doc id = some r) :
    opacityById (modifyAt (Element.setOpacity v) r doc) id = some v := by
  obtain ⟨e, he, _⟩ := getElementById_some doc id r h
  unfold opacityById
  rw [getElementById_modifyAt (Element.setOpacity v) (fun _ => rfl), h]
  simp [modifyAt_getElem?, he, Element.setOpacity]

theorem updateExperience_spec (s : Experience) (hpage : ScrollMarkup s.document) :
    ∃ s', updateExperience s = some s' ∧ s'.progress = s.progress ∧
      ScrollMarkup s'.document ∧ Settled s' := by
  obtain ⟨doc', hrun, hids, hact, -⟩ :=
    markLayers_spec (activeIndex s.progress) layers.enum s.document layers_enum_nodup
      (fun x hx => hpage.1 x.2 (by
        have := List.mem_map_of_mem Prod.snd hx
        simpa [List.enum_map_snd] using this))
  obtain ⟨hint, hhint⟩ := Option.isSome_iff_exists.mp hpage.2
  have hhint' : getElementById doc' "scroll-hint" = some hint := by rw [hids]; exact hhint
  have key : ∀ v : ℚ,
      ScrollMarkup (modifyAt (Element.setOpacity v) hint doc') ∧
      (∀ x ∈ layers.enum,
        hasClassById (modifyAt (Element.setOpacity v) hint doc') x.2 "active"
          = decide ((x.1 : ℤ) = activeIndex s.progress)) ∧
      opacityById (modifyAt (Element.setOpacity v) hint doc') "scroll-hint" = some v := by
    intro v
    refine ⟨⟨fun id hid => ?_, ?_⟩, fun x hx => ?_, opacityById_set doc' _ hint v hhint'⟩
    · rw [getElementById_modifyAt (Element.setOpacity v) (fun _ => rfl), hids]; exact hpage.1 id hid
    · rw [getElementById_modifyAt (Element.setOpacity v) (fun _ => rfl), hids]; exact hpage.2
    · rw [hasClassById_modifyAt (Element.setOpacity v) (fun _ => rfl) (fun _ => rfl)]; exact hact x hx
  by_cases hp : s.progress > roundDouble 0.02
  · refine ⟨{ s.gsapTo ⟨.cameraPosition, [("z", roundDouble (10 - roundDouble (s.progress * 120)))], 1.5,
        some "power2.out", none⟩ with document := modifyAt (Element.setOpacity 0) hint doc' },
      ?_, rfl, (key 0).1, ?_⟩
    · simp [updateExperience, Experience.gsapTo, hrun, hhint', hp]
    · refine ⟨(key 0).2.1, ?_⟩
      show opacityById _ _ = some (if s.progress > roundDouble 0.02 then 0 else 0.5)
      rw [if_pos hp]; exact (key 0).2.2
  · refine ⟨{ s.gsapTo ⟨.cameraPosition, [("z", roundDouble (10 - roundDouble (s.progress * 120)))], 1.5,
        some "power2.out", none⟩ with document := modifyAt (Element.setOpacity 0.5) hint doc' },
      ?_, rfl, (key 0.5).1, ?_⟩
    · simp [updateExperience, Experience.gsapTo, hrun, hhint', hp]
    · refine ⟨(key 0.5).2.1, ?_⟩
      show opacityById _ _ = some (if s.progress > roundDouble 0.02 then 0 else 0.5)
      rw [if_neg hp]; exact (key 0.5).2.2


theorem settled_layers (s : Experience) (hs : Settled s) (hp : 0 ≤ s.progress) :
    (∀ (i : Nat) (h : i < layers.length),
      hasClassById s.document (layers.get ⟨i, h⟩) "active" = true ↔
        (i : ℤ) = activeIndex s.progress) ∧
    (layers.filter (fun id => hasClassById s.document id "active")).length = 1 := by
  obtain ⟨h0, h6⟩ := activeIndex_bounds s.progress hp
  have e0 := hs.1 (0, "layer-hero") (by decide)
  have e1 := hs.1 (1, "layer-profile") (by decide)
  have e2 := hs.1 (2, "layer-skills") (by decide)
  have e3 := hs.1 (3, "layer-tools") (by decide)
  have e4 := hs.1 (4, "layer-projects") (by decide)
  have e5 := hs.1 (5, "layer-achievements") (by decide)
  have e6 := hs.1 (6, "layer-contact") (by decide)
  simp only [Nat.cast_ofNat, Nat.cast_zero, Nat.cast_one] at e0 e1 e2 e3 e4 e5 e6
  constructor
  · intro i h
    have h7 : i < 7 := h
    interval_cases i
    · show hasClassById s.document "layer-hero" "active" = true ↔ _
      rw [e0, decide_eq_true_iff]; rfl
    · show hasClassById s.document "layer-profile" "active" = true ↔ _
      rw [e1, decide_eq_true_iff]; rfl
    · show hasClassById s.document "layer-skills" "active" = true ↔ _
      rw [e2, decide_eq_true_iff]; rfl
    · show hasClassById s.document "layer-tools" "active" = true ↔ _
      rw [e3, decide_eq_true_iff]; rfl
    · show hasClassById s.document "layer-projects" "active" = true ↔ _
      rw [e4, decide_eq_true_iff]; rfl
    · show hasClassById s.document "layer-achievements" "active" = true ↔ _
      rw [e5, decide_eq_true_iff]; rfl
    · show hasClassById s.document "layer-contact" "active" = true ↔ _
      rw [e6, decide_eq_true_iff]; rfl
  · simp only [layers, List.filter, e0, e1, e2, e3, e4, e5, e6]
    generalize activeIndex s.progress = a at h0 h6
    interval_cases a <;> simp

theorem settled_at (s : Experience) (hs : Settled s) (i : Nat) (id : String)
    (hmem : (i, id) ∈ layers.enum) (ha : activeIndex s.progress = (i : ℤ)) :
    hasClassById s.document id "active" = true := by
  rw [hs.1 (i, id) hmem, decide_eq_true_iff, ha]

theorem settled_filter (s : Experience) (hs : Settled s) (a : ℤ) (h0 : 0 ≤ a) (h6 : a ≤ 6)
    (ha : activeIndex s.progress = a) :
    layers.filter (fun id => hasClassById s.document id "active") =
      [layers.getD a.toNat ""] := by
  have e0 := hs.1 (0, "layer-hero") (by decide)
  have e1 := hs.1 (1, "layer-profile") (by decide)
  have e2 := hs.1 (2, "layer-skills") (by decide)
  have e3 := hs.1 (3, "layer-tools") (by decide)
  have e4 := hs.1 (4, "layer-projects") (by decide)
  have e5 := hs.1 (5, "layer-achievements") (by decide)
  have e6 := hs.1 (6, "layer-contact") (by decide)
  simp only [Nat.cast_ofNat, Nat.cast_zero, Nat.cast_one, ha] at e0 e1 e2 e3 e4 e5 e6
  simp only [layers, List.filter, e0, e1, e2, e3, e4, e5, e6]
  interval_cases a <;> simp

theorem onWheel_spec (d : ℚ) (s : Experience) (hpage : ScrollMarkup s.document) :
    ∃ s', onWheel d s = some s' ∧
      s'.progress =
        max 0 (min (roundDouble (s.progress + roundDouble (d * roundDouble 0.0002))) 1) ∧
      ScrollMarkup s'.document ∧ Settled s' := by
  obtain ⟨s', hrun, hprog, hmark, hset⟩ := updateExperience_spec
    { s with
      progress :=
        max 0 (min (roundDouble (s.progress + roundDouble (d * roundDouble 0.0002))) 1) }
    hpage
  exact ⟨s', hrun, hprog, hmark, hset⟩

theorem wheelSequence_spec :
    ∀ (ds : List ℚ) (s : Experience), ScrollMarkup s.document →
      0 ≤ s.progress → s.progress ≤ 1 →
      ∃ s', wheelSequence ds s = some s' ∧ 0 ≤ s'.progress ∧ s'.progress ≤ 1 ∧
        (ds ≠ [] → Settled s')
  | [], s, _, h0, h1 => ⟨s, rfl, h0, h1, fun h => absurd rfl h⟩
  | d :: ds, s, hpage, _, _ => by
    obtain ⟨s1, hrun1, hprog1, hmark1, hset1⟩ := onWheel_spec d s hpage
    have h0 : 0 ≤ s1.progress := by rw [hprog1]; exact le_max_left _ _
    have h1 : s1.progress ≤ 1 := by
      rw [hprog1]; exact max_le (by norm_num) (min_le_right _ _)
    obtain ⟨s', hrun, hb0, hb1, hset⟩ := wheelSequence_spec ds s1 hmark1 h0 h1
    refine ⟨s', ?_, hb0, hb1, fun _ => ?_⟩
    · simp [wheelSequence, hrun1, hrun]
    · cases ds with
      | nil =>
        simp only [wheelSequence, Option.some.injEq] at hrun
        rw [← hrun]; exact hset1
      | cons d' ds' => exact hset (by simp)

/-! ## Scroll controller: the claims -/

/-- C1: for a progress value in the unit interval, and whatever classes the
page carried before, `updateExperience` computes
`activeIndex = min(floor(p * 7), 6)`, the product being the double product of
the program; the index equals the clamp of `floor(p * 7)` to `0..6` and lies
in `0..6`; the call succeeds, and afterwards layer `i` carries `active`
exactly when `i = activeIndex`, so exactly one of the seven layers carries
it. -/
theorem updateExperience_activeLayer (s : Experience)
    (hp0 : 0 ≤ s.progress) (hp1 : s.progress ≤ 1) (hpage : ScrollMarkup s.document) :
    activeIndex s.progress = min ⌊roundDouble (s.progress * 7)⌋ 6 ∧
    activeIndex s.progress = max 0 (min ⌊roundDouble (s.progress * 7)⌋ 6) ∧
    0 ≤ activeIndex s.progress ∧ activeIndex s.progress ≤ 6 ∧
    ∃ s', updateExperience s = some s' ∧
      (∀ (i : Nat) (h : i < layers.length),
        hasClassById s'.document (layers.get ⟨i, h⟩) "active" = true ↔
          (i : ℤ) = activeIndex s.progress) ∧
      (layers.filter (fun id => hasClassById s'.document id "active")).length = 1 := by
  have hb := activeIndex_bounds s.progress hp0
  have _ := hp1
  refine ⟨activeIndex_eq _, ?_, hb.1, hb.2, ?_⟩
  · rw [← activeIndex_eq, max_eq_right hb.1]
  · obtain ⟨s', hrun, hprog, -, hset⟩ := updateExperience_spec s hpage
    have := settled_layers s' hset (by rw [hprog]; exact hp0)
    rw [hprog] at this
    exact ⟨s', hrun, this⟩

/-- Witness of C1: the sample page, with stale markers, at progress one half. -/
theorem updateExperience_activeLayer_witness :
    (0 ≤ sampleState.progress ∧ sampleState.progress ≤ 1 ∧ ScrollMarkup sampleState.document) ∧
    (activeIndex sampleState.progress = min ⌊roundDouble (sampleState.progress * 7)⌋ 6 ∧
    activeIndex sampleState.progress = max 0 (min ⌊roundDouble (sampleState.progress * 7)⌋ 6) ∧
    0 ≤ activeIndex sampleState.progress ∧ activeIndex sampleState.progress ≤ 6 ∧
    ∃ s', updateExperience sampleState = some s' ∧
      (∀ (i : Nat) (h : i < layers.length),
        hasClassById s'.document (layers.get ⟨i, h⟩) "active" = true ↔
          (i : ℤ) = activeIndex sampleState.progress) ∧
      (layers.filter (fun id => hasClassById s'.document id "active")).length = 1) :=
  ⟨⟨by norm_num [sampleState], by norm_num [sampleState],
      by unfold ScrollMarkup; decide⟩,
    updateExperience_activeLayer sampleState (by norm_num [sampleState])
      (by norm_num [sampleState]) (by unfold ScrollMarkup; decide)⟩

/-- C2: on a page that provides the nodes `updateExperience` touches, every
wheel event stores `max(0, min(progress + deltaY * 0.0002, 1))`, sum and
product being those of the program, and from the initial progress 0 any
finite sequence of wheel events, whatever their `deltaY`, is handled to the
end and leaves `0 ≤ progress ≤ 1`. -/
theorem wheelSequence_progress_clamped (page : Document) (input : String) (out : List String)
    (hpage : ScrollMarkup page) (ds : List ℚ) :
    (fresh page input out).progress = 0 ∧
    (∀ (d : ℚ) (s : Experience), ScrollMarkup s.document →
      ∃ s', onWheel d s = some s' ∧
        s'.progress =
          max 0 (min (roundDouble (s.progress + roundDouble (d * roundDouble 0.0002))) 1)) ∧
    ∃ s', wheelSequence ds (fresh page input out) = some s' ∧
      0 ≤ s'.progress ∧ s'.progress ≤ 1 := by
  refine ⟨rfl, fun d s hs => ?_, ?_⟩
  · obtain ⟨s', hrun, hprog, -, -⟩ := onWheel_spec d s hs
    exact ⟨s', hrun, hprog⟩
  · obtain ⟨s', hrun, h0, h1, -⟩ := wheelSequence_spec ds (fresh page input out) hpage
      (le_refl _) (by norm_num [fresh])
    exact ⟨s', hrun, h0, h1⟩

/-- Witness of C2: the sample page under a downward, a large upward and a
zero wheel event. -/
theorem wheelSequence_progress_clamped_witness :
    ScrollMarkup samplePage ∧
    ((fresh samplePage "" []).progress = 0 ∧
    (∀ (d : ℚ) (s : Experience), ScrollMarkup s.document →
      ∃ s', onWheel d s = some s' ∧
        s'.progress =
          max 0 (min (roundDouble (s.progress + roundDouble (d * roundDouble 0.0002))) 1)) ∧
    ∃ s', wheelSequence [2500, -100000, 0] (fresh samplePage "" []) = some s' ∧
      0 ≤ s'.progress ∧ s'.progress ≤ 1) :=
  ⟨by unfold ScrollMarkup; decide,
    wheelSequence_progress_clamped samplePage "" [] (by unfold ScrollMarkup; decide)
      [2500, -100000, 0]⟩

/-- C6, as stated, fails in a session without any wheel event: the constructor
never calls `updateExperience`, so the state is the fresh one, and on the
sample page the hint carries no inline opacity (not 0.5) and the `active`
markers are those of the markup (two layers), although the progress is 0. -/
theorem noScroll_counterexample :
    wheelSequence [] (fresh samplePage "" []) = some (fresh samplePage "" []) ∧
    (fresh samplePage "" []).progress = 0 ∧
    opacityById (fresh samplePage "" []).document "scroll-hint" = none ∧
    opacityById (fresh samplePage "" []).document "scroll-hint" ≠ some 0.5 ∧
    layers.filter (fun id => hasClassById (fresh samplePage "" []).document id "active") =
      ["layer-hero", "layer-skills"] := by
  have h : opacityById (fresh samplePage "" []).document "scroll-hint" = none := by
    simp [opacityById, getElementById, findRef, fresh, samplePage]
  refine ⟨rfl, rfl, h, by rw [h]; simp, by decide⟩

/-- C6, amended: `updateExperience` sets the inline opacity of `#scroll-hint`
to 0 when `progress > 0.02` and to 0.5 otherwise.  A session whose wheel
events bring the progress from 0 to one half ends with `activeIndex = 3`, the
fourth layer marked and hint opacity 0 (one wheel event of `deltaY = 2500` is
such a session).  A session of at least one wheel event that ends at progress
0 ends with `activeIndex = 0`, the first layer marked and hint opacity 0.5
(one wheel event of `deltaY = 0` is such a session). -/
theorem updateExperience_scrollHint (page : Document) (input : String) (out : List String)
    (hpage : ScrollMarkup page) :
    (∀ s : Experience, ScrollMarkup s.document →
      ∃ s', updateExperience s = some s' ∧
        opacityById s'.document "scroll-hint" =
          some (if s.progress > roundDouble 0.02 then 0 else 0.5)) ∧
    (∀ ds : List ℚ, ∃ s', wheelSequence ds (fresh page input out) = some s' ∧
      (s'.progress = 1 / 2 →
        activeIndex s'.progress = 3 ∧ hasClassById s'.document "layer-tools" "active" = true ∧
          (layers.filter (fun id => hasClassById s'.document id "active")) = ["layer-tools"] ∧
          opacityById s'.document "scroll-hint" = some 0)) ∧
    (∃ s', wheelSequence [2500] (fresh page input out) = some s' ∧ s'.progress = 1 / 2) ∧
    (∀ ds : List ℚ, ds ≠ [] → ∃ s', wheelSequence ds (fresh page input out) = some s' ∧
      (s'.progress = 0 →
        activeIndex s'.progress = 0 ∧ hasClassById s'.document "layer-hero" "active" = true ∧
          (layers.filter (fun id => hasClassById s'.document id "active")) = ["layer-hero"] ∧
          opacityById s'.document "scroll-hint" = some 0.5)) ∧
    (∃ s', wheelSequence [0] (fresh page input out) = some s' ∧ s'.progress = 0) := by
  have hlit : (0 : ℚ) < roundDouble 0.02 ∧ roundDouble 0.02 < 1 / 2 := by
    rw [literal_002]; constructor <;> norm_num
  refine ⟨fun s hs => ?_, fun ds => ?_, ?_, fun ds hne => ?_, ?_⟩
  · obtain ⟨s', hrun, hprog, -, hset⟩ := updateExperience_spec s hs
    exact ⟨s', hrun, by rw [← hprog]; exact hset.2⟩
  · obtain ⟨s', hrun, -, -, hset⟩ := wheelSequence_spec ds (fresh page input out) hpage
      (le_refl _) (by norm_num [fresh])
    refine ⟨s', hrun, fun hhalf => ?_⟩
    have hne : ds ≠ [] := by
      rintro rfl
      simp only [wheelSequence, Option.some.injEq] at hrun
      rw [← hrun] at hhalf
      norm_num [fresh] at hhalf
    have hs := hset hne
    have ha : activeIndex s'.progress = 3 := by
      rw [activeIndex_eq, hhalf, roundDouble_seven_halves]; norm_num
    refine ⟨ha, settled_at s' hs 3 "layer-tools" (by decide) ha,
      settled_filter s' hs 3 (by norm_num) (by norm_num) ha, ?_⟩
    rw [hs.2, hhalf, if_pos hlit.2]
  · obtain ⟨s', hrun, hprog, -, -⟩ := onWheel_spec 2500 (fresh page input out) hpage
    refine ⟨s', by simp [wheelSequence, hrun], ?_⟩
    rw [hprog]
    show max 0 (min (roundDouble (0 + roundDouble (2500 * roundDouble 0.0002))) 1) = 1 / 2
    rw [wheel_2500]; norm_num
  · obtain ⟨s', hrun, -, -, hset⟩ := wheelSequence_spec ds (fresh page input out) hpage
      (le_refl _) (by norm_num [fresh])
    refine ⟨s', hrun, fun hzero => ?_⟩
    have hs := hset hne
    have ha : activeIndex s'.progress = 0 := by
      rw [activeIndex_eq, hzero, zero_mul, roundDouble_zero]; norm_num
    refine ⟨ha, settled_at s' hs 0 "layer-hero" (by decide) ha,
      settled_filter s' hs 0 (by norm_num) (by norm_num) ha, ?_⟩
    rw [hs.2, hzero, if_neg (not_lt.mpr hlit.1.le)]
  · obtain ⟨s', hrun, hprog, -, -⟩ := onWheel_spec 0 (fresh page input out) hpage
    refine ⟨s', by simp [wheelSequence, hrun], ?_⟩
    rw [hprog]
    show max 0 (min (roundDouble (0 + roundDouble (0 * roundDouble 0.0002))) 1) = 0
    rw [zero_mul, roundDouble_zero, zero_add, roundDouble_zero]; norm_num

/-- Witness of the amended C6 on the sample page. -/
theorem updateExperience_scrollHint_witness :
    ScrollMarkup samplePage ∧
    ((∀ s : Experience, ScrollMarkup s.document →
      ∃ s', updateExperience s = some s' ∧
        opacityById s'.document "scroll-hint" =
          some (if s.progress > roundDouble 0.02 then 0 else 0.5)) ∧
    (∀ ds : List ℚ, ∃ s', wheelSequence ds (fresh samplePage "" []) = some s' ∧
      (s'.progress = 1 / 2 →
        activeIndex s'.progress = 3 ∧ hasClassById s'.document "layer-tools" "active" = true ∧
          (layers.filter (fun id => hasClassById s'.document id "active")) = ["layer-tools"] ∧
          opacityById s'.document "scroll-hint" = some 0)) ∧
    (∃ s', wheelSequence [2500] (fresh samplePage "" []) = some s' ∧ s'.progress = 1 / 2) ∧
    (∀ ds : List ℚ, ds ≠ [] → ∃ s', wheelSequence ds (fresh samplePage "" []) = some s' ∧
      (s'.progress = 0 →
        activeIndex s'.progress = 0 ∧ hasClassById s'.document "layer-hero" "active" = true ∧
          (layers.filter (fun id => hasClassById s'.document id "active")) = ["layer-hero"] ∧
          opacityById s'.document "scroll-hint" = some 0.5)) ∧
    (∃ s', wheelSequence [0] (fresh samplePage "" []) = some s' ∧ s'.progress = 0)) :=
  ⟨by unfold ScrollMarkup; decide,
    updateExperience_scrollHint samplePage "" [] (by unfold ScrollMarkup; decide)⟩

/-! ## Lemmas on the mode controller -/

theorem classToggle_mem (c x : String) (force : Bool) (cl : List String) :
    x ∈ classToggle c force cl ↔ (if force then x = c ∨ x ∈ cl else x ≠ c ∧ x ∈ cl) := by
  unfold classToggle
  cases force <;> simp [classAdd_mem, classRemove_mem]

theorem toggleClass_contains (c k : String) (hk : k ≠ c) (force : Bool) (e : Element) :
    (e.toggleClass c force).classList.contains k = e.classList.contains k := by
  rw [Bool.eq_iff_iff]
  simp [Element.toggleClass, classToggle_mem]
  cases force <;> simp [hk]

theorem foldl_gsapTo (g : Nat → Tween) :
    ∀ (l : List Nat) (s : Experience),
      l.foldl (fun acc i => acc.gsapTo (g i)) s = { s with tweens := s.tweens ++ l.map g }
  | [], s => by simp
  | i :: l, s => by
    rw [List.foldl_cons, foldl_gsapTo g l]
    simp [Experience.gsapTo]

theorem switchMode_spec (mode : String) (s : Experience) (hne : mode ≠ s.currentMode)
    (b tc ts n tw : Nat)
    (hb : documentBody s.document = some b)
    (htc : getElementById s.document "toggle-cyber" = some tc)
    (hts : getElementById s.document "toggle-studio" = some ts)
    (hn : querySelector s.document "npc-text" = some n)
    (htw : getElementById s.document "terminal-wrapper" = some tw) :
    switchMode mode s = some
      { s with
        currentMode := mode
        document := switchDocument (decide (mode = "cyber")) b tc ts tw s.document
        tweens := s.tweens ++ switchTweens (decide (mode = "cyber"))
        spoken := s.spoken ++
          [if decide (mode = "cyber") then "Security matrix active. Recon modules online."
            else "Creative engine initialized. Systems operational."] } := by
  have hid : ∀ (c : String) (f : Bool) (e : Element), (e.toggleClass c f).id = e.id :=
    fun _ _ _ => rfl
  have hsel : ∀ (k c : String) (f : Bool) (e : Element),
      (if e.classList.contains k then e.toggleClass c f else e).id = e.id := by
    intro k c f e; split <;> rfl
  have g1 : ∀ (c : String) (f : Bool) (r : Nat) (doc : Document) (id : String),
      getElementById (modifyAt (Element.toggleClass c f) r doc) id = getElementById doc id :=
    fun c f r doc id => getElementById_modifyAt _ (hid c f) r doc id
  have g2 : ∀ (k c : String) (f : Bool) (doc : Document) (id : String),
      getElementById (forEachSelected k (Element.toggleClass c f) doc) id
        = getElementById doc id :=
    fun k c f doc id => findRef_map _ _ (fun e => by
      show ((if e.classList.contains k then e.toggleClass c f else e).id == id) = (e.id == id)
      rw [hsel]) doc
  have q1 : ∀ (c : String) (f : Bool) (r : Nat) (doc : Document), c ≠ "npc-text" →
      querySelector (modifyAt (Element.toggleClass c f) r doc) "npc-text"
        = querySelector doc "npc-text" :=
    fun c f r doc hc => findRef_modifyAt _ _
      (fun e => toggleClass_contains c "npc-text" (Ne.symm hc) f e) r doc
  have q2 : ∀ (k c : String) (f : Bool) (doc : Document), c ≠ "npc-text" →
      querySelector (forEachSelected k (Element.toggleClass c f) doc) "npc-text"
        = querySelector doc "npc-text" :=
    fun k c f doc hc => findRef_map _ _ (fun e => by
      split
      · exact toggleClass_contains c "npc-text" (Ne.symm hc) f e
      · rfl) doc
  simp only [switchMode, if_neg hne, hb, Option.bind_eq_bind, Option.some_bind, g1, g2, htc, hts,
    speak, foldl_gsapTo]
  simp only [Experience.gsapTo]
  rw [q2 _ _ _ _ (by decide), q2 _ _ _ _ (by decide), q1 _ _ _ _ (by decide),
    q1 _ _ _ _ (by decide), q1 _ _ _ _ (by decide), hn]
  simp only [Option.some_bind, g1, g2, htw]
  simp [switchDocument, switchTweens, Experience.gsapTo]

theorem toggleIf_tag (cond : Bool) (c : String) (f : Bool) (e : Element) :
    (e.toggleIf cond c f).tag = e.tag := by
  unfold Element.toggleIf; split <;> rfl

theorem toggleIf_id (cond : Bool) (c : String) (f : Bool) (e : Element) :
    (e.toggleIf cond c f).id = e.id := by
  unfold Element.toggleIf; split <;> rfl

theorem toggleIf_opacity (cond : Bool) (c : String) (f : Bool) (e : Element) :
    (e.toggleIf cond c f).opacity = e.opacity := by
  unfold Element.toggleIf; split <;> rfl

theorem mem_toggleIf (cond : Bool) (c x : String) (f : Bool) (e : Element) :
    x ∈ (e.toggleIf cond c f).classList ↔
      (cond = true ∧ f = true ∧ x = c) ∨ (x ∈ e.classList ∧ ¬(cond = true ∧ f = false ∧ x = c)) := by
  unfold Element.toggleIf
  cases cond <;> cases f <;> simp [Element.toggleClass, classToggle_mem]
  tauto

theorem toggleIf_contains (cond : Bool) (c k : String) (hk : k ≠ c) (f : Bool) (e : Element) :
    (e.toggleIf cond c f).classList.contains k = e.classList.contains k := by
  unfold Element.toggleIf
  split
  · exact toggleClass_contains c k hk f e
  · rfl

theorem switchDocument_getElem? (c : Bool) (b tc ts tw : Nat) (doc : Document) (m : Nat) :
    (switchDocument c b tc ts tw doc)[m]? =
      (doc[m]?).map (switchElement c (decide (b = m)) (decide (tc = m)) (decide (ts = m))
        (decide (tw = m))) := by
  simp only [switchDocument, forEachSelected, modifyAt_getElem?, List.getElem?_map]
  cases doc[m]? with
  | none => rfl
  | some e =>
    simp only [Option.map_some', switchElement, Element.toggleIf]
    by_cases h1 : b = m <;> by_cases h2 : tc = m <;> by_cases h3 : ts = m <;>
      by_cases h4 : tw = m <;> simp [h1, h2, h3, h4]

theorem switchDocument_length (c : Bool) (b tc ts tw : Nat) (doc : Document) :
    (switchDocument c b tc ts tw doc).length = doc.length := by
  simp [switchDocument, forEachSelected, modifyAt_length]

theorem switchElement_roundTrip (fb ftc fts ftw : Bool) (e : Element)
    (h1 : fb = true → "studio-mode" ∉ e.classList)
    (h2 : ftc = true → "active" ∈ e.classList)
    (h3 : fts = true → "active" ∉ e.classList)
    (h4 : "cyber-only" ∈ e.classList → "hidden" ∉ e.classList)
    (h5 : "studio-only" ∈ e.classList → "hidden" ∈ e.classList)
    (h6 : ftw = true → "hidden" ∉ e.classList) :
    SameClasses (switchElement true fb ftc fts ftw (switchElement false fb ftc fts ftw e)) e := by
  refine ⟨?_, ?_, ?_, fun x => ?_⟩
  · simp only [switchElement, toggleIf_tag]
  · simp only [switchElement, toggleIf_id]
  · simp only [switchElement, toggleIf_opacity]
  · have c1 := fun (cond f : Bool) (e : Element) =>
      toggleIf_contains cond "studio-mode" "cyber-only" (by decide) f e
    have c2 := fun (cond f : Bool) (e : Element) =>
      toggleIf_contains cond "active" "cyber-only" (by decide) f e
    have c3 := fun (cond f : Bool) (e : Element) =>
      toggleIf_contains cond "hidden" "cyber-only" (by decide) f e
    have c4 := fun (cond f : Bool) (e : Element) =>
      toggleIf_contains cond "studio-mode" "studio-only" (by decide) f e
    have c5 := fun (cond f : Bool) (e : Element) =>
      toggleIf_contains cond "active" "studio-only" (by decide) f e
    have c6 := fun (cond f : Bool) (e : Element) =>
      toggleIf_contains cond "hidden" "studio-only" (by decide) f e
    simp only [switchElement, c1, c2, c3, c4, c5, c6]
    simp only [mem_toggleIf, List.elem_eq_mem, decide_eq_true_eq]
    clear c1 c2 c3 c4 c5 c6
    by_cases x1 : x = "hidden"
    · subst x1
      simp
      cases ftw <;> simp at h6 ⊢ <;> tauto
    · by_cases x2 : x = "active"
      · subst x2
        simp
        cases ftc <;> cases fts <;> simp at h2 h3 ⊢ <;> tauto
      · by_cases x3 : x = "studio-mode"
        · subst x3
          simp
          cases fb <;> simp at h1 ⊢
          tauto
        · simp [x1, x2, x3]

theorem findRef_switchDocument (p : Element → Bool)
    (hp1 : ∀ f e, p (Element.toggleClass "studio-mode" f e) = p e)
    (hp2 : ∀ f e, p (Element.toggleClass "active" f e) = p e)
    (hp3 : ∀ f e, p (Element.toggleClass "hidden" f e) = p e)
    (c : Bool) (b tc ts tw : Nat) (doc : Document) :
    findRef p (switchDocument c b tc ts tw doc) = findRef p doc := by
  unfold switchDocument forEachSelected
  rw [findRef_modifyAt p _ (hp3 _),
    findRef_map p _ (fun e => by split; exact hp3 _ e; rfl),
    findRef_map p _ (fun e => by split; exact hp3 _ e; rfl),
    findRef_modifyAt p _ (hp2 _), findRef_modifyAt p _ (hp2 _), findRef_modifyAt p _ (hp1 _)]

theorem switchTweens_filter_npc (c : Bool) :
    (switchTweens c).filter (fun tw => decide (tw.target = .npcMaterialColor)) =
      [⟨.npcMaterialColor,
        [("r", if c then 0 else 1), ("g", if c then 0.95 else 0), ("b", if c then 1 else 1)],
        1.5, none, none⟩] := by
  simp [switchTweens, List.filter_cons, List.filter_map, Function.comp_def]

theorem switchTweens_filter_light (c : Bool) :
    (switchTweens c).filter (fun tw => decide (tw.target = .pointLightColor)) =
      [⟨.pointLightColor,
        [("r", if c then 0 else 1), ("g", if c then 0.95 else 0), ("b", if c then 1 else 1)],
        1.5, none, none⟩] := by
  simp [switchTweens, List.filter_cons, List.filter_map, Function.comp_def]

theorem colorTarget_npc (s : Experience) (l : List Tween) (c : Bool)
    (h : s.tweens = l ++ switchTweens c) :
    colorTarget .npcMaterialColor s = some
      [("r", if c then 0 else 1), ("g", if c then 0.95 else 0), ("b", if c then 1 else 1)] := by
  simp [colorTarget, h, List.filter_append, switchTweens_filter_npc]

theorem colorTarget_light (s : Experience) (l : List Tween) (c : Bool)
    (h : s.tweens = l ++ switchTweens c) :
    colorTarget .pointLightColor s = some
      [("r", if c then 0 else 1), ("g", if c then 0.95 else 0), ("b", if c then 1 else 1)] := by
  simp [colorTarget, h, List.filter_append, switchTweens_filter_light]

theorem switchMode_twice_run (page : Document) (input : String) (out : List String)
    (b tc ts n tw : Nat)
    (hb : documentBody page = some b)
    (htc : getElementById page "toggle-cyber" = some tc)
    (hts : getElementById page "toggle-studio" = some ts)
    (hn : querySelector page "npc-text" = some n)
    (htw : getElementById page "terminal-wrapper" = some tw) :
    switchMode "studio" (fresh page input out) = some
      ⟨"studio", 0, switchDocument false b tc ts tw page, switchTweens false,
        ["Creative engine initialized. Systems operational."], input,
        write "WolfShell v3.0 | Status: Connected" out⟩ ∧
    switchMode "cyber"
      ⟨"studio", 0, switchDocument false b tc ts tw page, switchTweens false,
        ["Creative engine initialized. Systems operational."], input,
        write "WolfShell v3.0 | Status: Connected" out⟩ = some
      ⟨"cyber", 0, switchDocument true b tc ts tw (switchDocument false b tc ts tw page),
        switchTweens false ++ switchTweens true,
        ["Creative engine initialized. Systems operational.",
          "Security matrix active. Recon modules online."], input,
        write "WolfShell v3.0 | Status: Connected" out⟩ := by
  have stable : ∀ (p : Element → Bool),
      (∀ f e, p (Element.toggleClass "studio-mode" f e) = p e) →
      (∀ f e, p (Element.toggleClass "active" f e) = p e) →
      (∀ f e, p (Element.toggleClass "hidden" f e) = p e) →
      findRef p (switchDocument false b tc ts tw page) = findRef p page :=
    fun p h1 h2 h3 => findRef_switchDocument p h1 h2 h3 false b tc ts tw page
  have idp : ∀ id : String, getElementById (switchDocument false b tc ts tw page) id
      = getElementById page id :=
    fun id => stable (fun e => e.id == id) (fun _ _ => rfl) (fun _ _ => rfl) (fun _ _ => rfl)
  have hb1 : documentBody (switchDocument false b tc ts tw page) = some b :=
    (stable (fun e => e.tag == "body") (fun _ _ => rfl) (fun _ _ => rfl)
      (fun _ _ => rfl)).trans hb
  have hn1 : querySelector (switchDocument false b tc ts tw page) "npc-text" = some n :=
    (stable (fun e => e.classList.contains "npc-text")
      (fun f e => toggleClass_contains _ _ (by decide) f e)
      (fun f e => toggleClass_contains _ _ (by decide) f e)
      (fun f e => toggleClass_contains _ _ (by decide) f e)).trans hn
  have r1 : switchMode "studio" (fresh page input out) = some
      ⟨"studio", 0, switchDocument false b tc ts tw page, switchTweens false,
        ["Creative engine initialized. Systems operational."], input,
        write "WolfShell v3.0 | Status: Connected" out⟩ := by
    rw [switchMode_spec "studio" (fresh page input out)
      (by show "studio" ≠ "cyber"; decide) b tc ts n tw hb htc hts hn htw]
    simp [fresh]
  have r2 : switchMode "cyber"
      ⟨"studio", 0, switchDocument false b tc ts tw page, switchTweens false,
        ["Creative engine initialized. Systems operational."], input,
        write "WolfShell v3.0 | Status: Connected" out⟩ = some
      ⟨"cyber", 0, switchDocument true b tc ts tw (switchDocument false b tc ts tw page),
        switchTweens false ++ switchTweens true,
        ["Creative engine initialized. Systems operational.",
          "Security matrix active. Recon modules online."], input,
        write "WolfShell v3.0 | Status: Connected" out⟩ := by
    rw [switchMode_spec "cyber"
      ⟨"studio", 0, switchDocument false b tc ts tw page, switchTweens false,
        ["Creative engine initialized. Systems operational."], input,
        write "WolfShell v3.0 | Status: Connected" out⟩
      (by show "cyber" ≠ "studio"; decide) b tc ts n tw hb1 ((idp _).trans htc)
      ((idp _).trans hts) hn1 ((idp _).trans htw)]
    simp
  exact ⟨r1, r2⟩

theorem switchMode_twice_spec (page : Document) (input : String) (out : List String)
    (hm : ModeMarkup page) (hl : CyberLayout page) :
    ∃ s1 s2, switchMode "studio" (fresh page input out) = some s1 ∧
      switchMode "cyber" s1 = some s2 ∧ s2.currentMode = "cyber" ∧
      List.Forall₂ SameClasses s2.document page ∧
      s2.tweens = switchTweens false ++ switchTweens true ∧
      s2.spoken = ["Creative engine initialized. Systems operational.",
        "Security matrix active. Recon modules online."] := by
  obtain ⟨hb, htc, hts, hn, htw⟩ := hm
  obtain ⟨b, hb⟩ := Option.isSome_iff_exists.mp hb
  obtain ⟨tc, htc⟩ := Option.isSome_iff_exists.mp htc
  obtain ⟨ts, hts⟩ := Option.isSome_iff_exists.mp hts
  obtain ⟨n, hn⟩ := Option.isSome_iff_exists.mp hn
  obtain ⟨tw, htw⟩ := Option.isSome_iff_exists.mp htw
  obtain ⟨r1, r2⟩ := switchMode_twice_run page input out b tc ts n tw hb htc hts hn htw
  refine ⟨_, _, r1, r2, rfl, ?_, rfl, rfl⟩
  show List.Forall₂ SameClasses
    (switchDocument true b tc ts tw (switchDocument false b tc ts tw page)) page
  rw [List.forall₂_iff_get]
  refine ⟨by simp [switchDocument_length], fun i h1 h2 => ?_⟩
  have hget : (switchDocument true b tc ts tw (switchDocument false b tc ts tw page))[i]? =
      some (switchElement true (decide (b = i)) (decide (tc = i)) (decide (ts = i))
        (decide (tw = i)) (switchElement false (decide (b = i)) (decide (tc = i))
          (decide (ts = i)) (decide (tw = i)) (page.get ⟨i, h2⟩))) := by
    rw [switchDocument_getElem?, switchDocument_getElem?, List.getElem?_eq_getElem h2]
    rfl
  have hget' : (switchDocument true b tc ts tw (switchDocument false b tc ts tw page)).get
      ⟨i, h1⟩ = switchElement true (decide (b = i)) (decide (tc = i)) (decide (ts = i))
        (decide (tw = i)) (switchElement false (decide (b = i)) (decide (tc = i))
          (decide (ts = i)) (decide (tw = i)) (page.get ⟨i, h2⟩)) := by
    rw [List.get_eq_getElem, List.getElem_eq_iff]
    exact hget
  rw [hget']
  have hmem : page.get ⟨i, h2⟩ ∈ page := List.get_mem _ _ _
  have hpi : page[i]? = some (page.get ⟨i, h2⟩) := List.getElem?_eq_getElem h2
  obtain ⟨l1, l2, l3, l4, l5, l6⟩ := hl
  apply switchElement_roundTrip
  · intro hb'
    have hbi : b = i := of_decide_eq_true hb'
    subst hbi
    simpa [bodyHasClass, hb, hpi] using l1
  · intro h'
    have hi : tc = i := of_decide_eq_true h'
    subst hi
    simpa [hasClassById, htc, hpi] using l2
  · intro h'
    have hi : ts = i := of_decide_eq_true h'
    subst hi
    simpa [hasClassById, hts, hpi] using l3
  · exact l5 _ hmem
  · exact l6 _ hmem
  · intro h'
    have hi : tw = i := of_decide_eq_true h'
    subst hi
    simpa [hasClassById, htw, hpi] using l4

theorem samplePage_mode : ModeMarkup samplePage := by
  unfold ModeMarkup; decide

theorem studio_filter_nil (g : Nat → Tween) (hg : ∀ j, (g j).target = .studioMaterial j) :
    ∀ (n i : Nat), n ≤ i →
      ((List.range n).map g).filter (fun tw => decide (tw.target = .studioMaterial i)) = []
  | 0, _, _ => rfl
  | n + 1, i, h => by
    have hn : n ≠ i := by omega
    rw [List.range_succ, List.map_append, List.filter_append,
      studio_filter_nil g hg n i (by omega)]
    simp [hg, hn]

theorem studio_filter (g : Nat → Tween) (hg : ∀ j, (g j).target = .studioMaterial j) :
    ∀ (n i : Nat), i < n →
      ((List.range n).map g).filter (fun tw => decide (tw.target = .studioMaterial i)) = [g i]
  | n + 1, i, h => by
    rw [List.range_succ, List.map_append, List.filter_append]
    by_cases hi : i = n
    · subst hi
      rw [studio_filter_nil g hg i i (le_refl _)]
      simp [hg]
    · have hn : n ≠ i := fun h' => hi h'.symm
      rw [studio_filter g hg n i (by omega)]
      simp [hg, hn]

theorem switchTweens_filter_studio (c : Bool) (i : Nat) (hi : i < studioCount) :
    (switchTweens c).filter (fun tw => decide (tw.target = .studioMaterial i)) =
      [⟨.studioMaterial i, [("opacity", if c then 0 else 0.8)], 1, none, none⟩] := by
  unfold switchTweens
  rw [List.filter_append, studio_filter _ (fun _ => rfl) studioCount i hi]
  simp

theorem switchMode_issued (mode : String) (s : Experience) (hne : mode ≠ s.currentMode)
    (hpage : ModeMarkup s.document) :
    ∃ s', switchMode mode s = some s' ∧ s'.currentMode = mode ∧
      s'.tweens = s.tweens ++ switchTweens (decide (mode = "cyber")) := by
  obtain ⟨hb, htc, hts, hn, htw⟩ := hpage
  obtain ⟨b, hb⟩ := Option.isSome_iff_exists.mp hb
  obtain ⟨tc, htc⟩ := Option.isSome_iff_exists.mp htc
  obtain ⟨ts, hts⟩ := Option.isSome_iff_exists.mp hts
  obtain ⟨n, hn⟩ := Option.isSome_iff_exists.mp hn
  obtain ⟨tw, htw⟩ := Option.isSome_iff_exists.mp htw
  exact ⟨_, switchMode_spec mode s hne b tc ts n tw hb htc hts hn htw, rfl, rfl⟩

/-! ## Mode controller: the claims -/

/-- C3: `switchMode(m)` with `m` the current mode returns at once with the
state as it was: the mode, every class on every node of the page, the list of
animation requests and the list of narrations are all unchanged. -/
theorem switchMode_current_noop (s : Experience) :
    switchMode s.currentMode s = some s ∧
    ∃ s', switchMode s.currentMode s = some s' ∧ s'.currentMode = s.currentMode ∧
      s'.document = s.document ∧ s'.tweens = s.tweens ∧ s'.spoken = s.spoken := by
  have h : switchMode s.currentMode s = some s := by simp [switchMode]
  exact ⟨h, s, h, rfl, rfl, rfl, rfl⟩

/-- C4, as stated, fails on a page whose markup carries no state classes (the
cyber toggle is not marked `active`, the studio-only panel is not `hidden`):
after `switchMode('studio')` and `switchMode('cyber')` from the fresh state
the cyber toggle carries `active` and the studio-only panel carries `hidden`,
which they did not carry in the original state. -/
theorem roundTrip_classes_counterexample :
    ModeMarkup barePage ∧
    ∃ s1 s2, switchMode "studio" (fresh barePage "" []) = some s1 ∧
      switchMode "cyber" s1 = some s2 ∧
      hasClassById (fresh barePage "" []).document "toggle-cyber" "active" = false ∧
      hasClassById s2.document "toggle-cyber" "active" = true ∧
      (∀ e ∈ (fresh barePage "" []).document, "hidden" ∉ e.classList) ∧
      (∃ e ∈ s2.document, "studio-only" ∈ e.classList ∧ "hidden" ∈ e.classList) ∧
      ¬ List.Forall₂ SameClasses s2.document (fresh barePage "" []).document := by
  obtain ⟨r1, r2⟩ := switchMode_twice_run barePage "" [] 0 1 2 12 11
    (by decide) (by decide) (by decide) (by decide) (by decide)
  refine ⟨by unfold ModeMarkup; decide, _, _, r1, r2, by decide, by decide, by decide,
    by decide, fun h => ?_⟩
  have h1 := (List.forall₂_iff_get.mp h).2 1 (by decide) (by decide)
  have h2 := (h1.2.2.2 "active").mp (by decide)
  revert h2
  decide

/-- C4, amended: on a page that provides the nodes `switchMode` touches and
whose markup is laid out for mode `cyber`, `switchMode('studio')` followed by
`switchMode('cyber')` from the fresh state succeeds, ends in the original
mode, and leaves every node with its original tag, id and set of classes; the
colour last requested for the NPC material and for the point light is the
triple of the original mode, `(0, 0.95, 1)`. -/
theorem switchMode_roundTrip (page : Document) (input : String) (out : List String)
    (hm : ModeMarkup page) (hl : CyberLayout page) :
    ∃ s1 s2, switchMode "studio" (fresh page input out) = some s1 ∧
      switchMode "cyber" s1 = some s2 ∧
      s2.currentMode = (fresh page input out).currentMode ∧
      List.Forall₂ SameClasses s2.document (fresh page input out).document ∧
      colorTarget .npcMaterialColor s2 = some (modeColor (fresh page input out).currentMode) ∧
      colorTarget .pointLightColor s2 = some (modeColor (fresh page input out).currentMode) ∧
      modeColor (fresh page input out).currentMode = [("r", 0), ("g", 0.95), ("b", 1)] ∧
      colorTarget .npcMaterialColor s1 = some (modeColor "studio") ∧
      colorTarget .pointLightColor s1 = some (modeColor "studio") ∧
      modeColor "studio" = [("r", 1), ("g", 0), ("b", 1)] := by
  obtain ⟨s1, s2, h1, h2, hmode, hdoc, ht, -⟩ := switchMode_twice_spec page input out hm hl
  obtain ⟨s1', h1', -, ht1⟩ := switchMode_issued "studio" (fresh page input out)
    (by show "studio" ≠ "cyber"; decide) hm
  have hs1 : s1' = s1 := Option.some.inj (h1'.symm.trans h1)
  subst hs1
  have hc : modeColor (fresh page input out).currentMode = [("r", 0), ("g", 0.95), ("b", 1)] := by
    simp [modeColor, fresh]
  have hst : modeColor "studio" = [("r", 1), ("g", 0), ("b", 1)] := by
    simp [modeColor]
  refine ⟨s1', s2, h1, h2, hmode, hdoc, ?_, ?_, hc, ?_, ?_, hst⟩
  · rw [hc]; simpa using colorTarget_npc s2 _ true ht
  · rw [hc]; simpa using colorTarget_light s2 _ true ht
  · rw [hst]; simpa using colorTarget_npc s1' _ false ht1
  · rw [hst]; simpa using colorTarget_light s1' _ false ht1

/-- Witness of the amended C4 on the sample page. -/
theorem switchMode_roundTrip_witness :
    ModeMarkup samplePage ∧ CyberLayout samplePage ∧
    ∃ s1 s2, switchMode "studio" (fresh samplePage "" []) = some s1 ∧
      switchMode "cyber" s1 = some s2 ∧
      s2.currentMode = (fresh samplePage "" []).currentMode ∧
      List.Forall₂ SameClasses s2.document (fresh samplePage "" []).document ∧
      colorTarget .npcMaterialColor s2 = some (modeColor (fresh samplePage "" []).currentMode) ∧
      colorTarget .pointLightColor s2 = some (modeColor (fresh samplePage "" []).currentMode) ∧
      modeColor (fresh samplePage "" []).currentMode = [("r", 0), ("g", 0.95), ("b", 1)] ∧
      colorTarget .npcMaterialColor s1 = some (modeColor "studio") ∧
      colorTarget .pointLightColor s1 = some (modeColor "studio") ∧
      modeColor "studio" = [("r", 1), ("g", 0), ("b", 1)] :=
  ⟨by unfold ModeMarkup; decide, by unfold CyberLayout; decide,
    switchMode_roundTrip samplePage "" [] (by unfold ModeMarkup; decide)
      (by unfold CyberLayout; decide)⟩

/-- C5, as stated, fails on the sample page: the effective call
`switchMode('studio')` requests opacity 0.8, not 0, for member 0 of
`studioGroup`. -/
theorem studioOpacity_counterexample :
    "studio" ≠ (fresh samplePage "" []).currentMode ∧ ModeMarkup samplePage ∧
    ∃ s', switchMode "studio" (fresh samplePage "" []) = some s' ∧
      s'.tweens.filter (fun tw => decide (tw.target = .studioMaterial 0)) =
        [⟨.studioMaterial 0, [("opacity", 0.8)], 1, none, none⟩] ∧
      s'.tweens.filter (fun tw => decide (tw.target = .studioMaterial 0)) ≠
        [⟨.studioMaterial 0, [("opacity", if "studio" = "cyber" then 0.8 else 0)], 1,
          none, none⟩] := by
  refine ⟨by decide, samplePage_mode, ?_⟩
  obtain ⟨s', hrun, -, ht⟩ := switchMode_issued "studio" (fresh samplePage "" [])
    (by decide) samplePage_mode
  have hf : s'.tweens.filter (fun tw => decide (tw.target = .studioMaterial 0)) =
      [⟨.studioMaterial 0, [("opacity", 0.8)], 1, none, none⟩] := by
    rw [ht, List.filter_append, switchTweens_filter_studio _ 0 (by decide)]
    simp [fresh]
  refine ⟨s', hrun, hf, ?_⟩
  rw [hf, if_neg (by decide)]
  norm_num

/-- C5, amended: on every effective `switchMode(target)` the call issues, for
each member `i` of `studioGroup`, exactly one request on that member's
material: opacity 0 if `target` is `cyber` and 0.8 otherwise, duration 1. -/
theorem switchMode_studioGroup (mode : String) (s : Experience)
    (hne : mode ≠ s.currentMode) (hpage : ModeMarkup s.document) :
    ∃ s' issued, switchMode mode s = some s' ∧ s'.tweens = s.tweens ++ issued ∧
      ∀ i, i < studioCount →
        issued.filter (fun tw => decide (tw.target = .studioMaterial i)) =
          [⟨.studioMaterial i, [("opacity", if mode = "cyber" then 0 else 0.8)], 1,
            none, none⟩] := by
  obtain ⟨s', hrun, -, ht⟩ := switchMode_issued mode s hne hpage
  refine ⟨s', _, hrun, ht, fun i hi => ?_⟩
  rw [switchTweens_filter_studio _ i hi]
  simp

/-- Witness of the amended C5: switching the fresh sample page to `studio`. -/
theorem switchMode_studioGroup_witness :
    "studio" ≠ (fresh samplePage "" []).currentMode ∧
    ModeMarkup (fresh samplePage "" []).document ∧
    ∃ s' issued, switchMode "studio" (fresh samplePage "" []) = some s' ∧
      s'.tweens = (fresh samplePage "" []).tweens ++ issued ∧
      ∀ i, i < studioCount →
        issued.filter (fun tw => decide (tw.target = .studioMaterial i)) =
          [⟨.studioMaterial i, [("opacity", if "studio" = "cyber" then 0 else 0.8)], 1,
            none, none⟩] :=
  ⟨by decide, by unfold ModeMarkup; decide,
    switchMode_studioGroup "studio" (fresh samplePage "" []) (by decide)
      (by unfold ModeMarkup; decide)⟩

/-! ## Lemmas on the terminal -/

theorem isWhiteSpace_lowerChar (c : Char) : isWhiteSpace (lowerChar c) = isWhiteSpace c := by
  unfold lowerChar
  split
  · rename_i h
    obtain ⟨h1, h2⟩ := h
    have hc : c = Char.ofNat c.toNat := (Char.ofNat_toNat c).symm
    generalize c.toNat = n at h1 h2 hc
    subst hc
    interval_cases n <;> decide
  · split
    · rename_i h
      have hc : c = Char.ofNat c.toNat := (Char.ofNat_toNat c).symm
      rw [h] at hc
      subst hc
      decide
    · rfl

theorem dropWhile_lower (l : List Char) :
    (l.map lowerChar).dropWhile isWhiteSpace = (l.dropWhile isWhiteSpace).map lowerChar := by
  rw [List.dropWhile_map]
  congr 2
  funext c
  exact isWhiteSpace_lowerChar c

theorem trim_toLowerCase (raw : String) : trim (toLowerCase raw) = toLowerCase (trim raw) := by
  simp only [trim, toLowerCase, dropWhile_lower, ← List.map_reverse]

theorem handleCmd_help (s : Experience) :
    handleCmd "help" s = some
      { s with terminalOutput := s.terminalOutput ++
          ["<span>[wolf@system]</span>: help",
            "<span>[wolf@system]</span>: Commands: status, whoami, skills, clear, secret"] } := by
  simp [handleCmd, write, helpText]

/-! ## Terminal: the claims -/

/-- C7: when the trimmed, lower-cased input buffer is `help`, pressing Enter
appends exactly two lines to the output log, first the echo of `help`, then
the help line, and leaves the input buffer empty; everything else is
unchanged.  Trimming and lower-casing commute on every input. -/
theorem onKeyDown_help (s : Experience) (h : toLowerCase (trim s.terminalInput) = "help") :
    onKeyDown "Enter" s = some
      { s with
        terminalOutput := s.terminalOutput ++
          ["<span>[wolf@system]</span>: help",
            "<span>[wolf@system]</span>: Commands: status, whoami, skills, clear, secret"]
        terminalInput := "" } ∧
    ∀ raw : String, trim (toLowerCase raw) = toLowerCase (trim raw) := by
  refine ⟨?_, trim_toLowerCase⟩
  have hcmd : trim (toLowerCase s.terminalInput) = "help" := by rw [trim_toLowerCase]; exact h
  simp only [onKeyDown, if_true, hcmd, handleCmd_help, Option.bind_eq_bind, Option.some_bind]

/-- Witness of C7: the input `HELP` followed by a blank. -/
theorem onKeyDown_help_witness :
    toLowerCase (trim (fresh samplePage "HELP " []).terminalInput) = "help" ∧
    onKeyDown "Enter" (fresh samplePage "HELP " []) = some
      { fresh samplePage "HELP " [] with
        terminalOutput := (fresh samplePage "HELP " []).terminalOutput ++
          ["<span>[wolf@system]</span>: help",
            "<span>[wolf@system]</span>: Commands: status, whoami, skills, clear, secret"]
        terminalInput := "" } :=
  ⟨by decide, (onKeyDown_help (fresh samplePage "HELP " []) (by decide)).1⟩

/-- C8, the program at a failing input: the typed line `markupCommand` is
outside the vocabulary and survives normalisation unchanged; on Enter the
dispatcher takes no branch and the one string assigned to `innerHTML` carries
the typed markup unescaped, so the parser opens an `img` element from it
instead of showing the command as text. -/
theorem onKeyDown_markupCommand :
    markupCommand ∉ vocabulary ∧
    trim (toLowerCase markupCommand) = markupCommand ∧
    opensElement markupCommand = true ∧
    onKeyDown "Enter" (fresh samplePage markupCommand []) = some
      { fresh samplePage markupCommand [] with
        terminalOutput :=
          ["<span>[wolf@system]</span>: WolfShell v3.0 | Status: Connected",
            "<span>[wolf@system]</span>: <img src=x onerror=window['toggle-studio'].click()>"]
        terminalInput := "" } := by
  have hn : trim (toLowerCase markupCommand) = markupCommand := by decide
  refine ⟨by decide, hn, by decide, ?_⟩
  have hd : handleCmd markupCommand (fresh samplePage markupCommand []) =
      some (echoOnly markupCommand (fresh samplePage markupCommand [])) := by
    simp [handleCmd, echoOnly, markupCommand]
  show onKeyDown "Enter" (fresh samplePage markupCommand []) = _
  unfold onKeyDown
  rw [if_pos rfl]
  show (handleCmd (trim (toLowerCase markupCommand)) (fresh samplePage markupCommand [])).bind _ = _
  rw [hn, hd]
  rfl

/-- C9: whatever the output log held, `handleCmd('clear')` returns with an
empty log (the echo of `clear` is erased as well) and changes nothing else;
the same holds for Enter on an input that normalises to `clear`. -/
theorem handleCmd_clear (s : Experience) :
    handleCmd "clear" s = some { s with terminalOutput := [] } ∧
    (∃ s', handleCmd "clear" s = some s' ∧ s'.terminalOutput = []) ∧
    ∃ s', onKeyDown "Enter" { s with terminalInput := " Clear " } = some s' ∧
      s'.terminalOutput = [] := by
  have h : handleCmd "clear" s = some { s with terminalOutput := [] } := by
    simp [handleCmd]
  have hn : trim (toLowerCase " Clear ") = "clear" := by decide
  refine ⟨h, ⟨_, h, rfl⟩, ?_⟩
  simp [onKeyDown, hn, handleCmd]

/-- C10, as stated, fails on the fresh sample page: the names on the help line
are `status`, `whoami`, `skills`, `clear`, `secret`.  `status` is listed, is
outside the vocabulary, and its dispatch leaves the echo only; `scan` is in
the vocabulary, its dispatch starts an animation and a narration, and the
line does not list it. -/
theorem helpText_vocabulary_counterexample :
    listedNames helpText = ["status", "whoami", "skills", "clear", "secret"] ∧
    ("status" ∈ listedNames helpText ∧ "status" ∉ vocabulary ∧
      handleCmd "status" (fresh samplePage "" []) =
        some (echoOnly "status" (fresh samplePage "" []))) ∧
    ("scan" ∈ vocabulary ∧ "scan" ∉ listedNames helpText ∧
      handleCmd "scan" (fresh samplePage "" []) = some
        { echoOnly "scan" (fresh samplePage "" []) with
          tweens := [⟨.binaryMaterials 200, [("opacity", 0.8)], 1, none, some 0.01⟩]
          spoken := ["Data strings isolated. 0x0101."] }) ∧
    ¬ (∀ name : String, name ∈ listedNames helpText ↔ name ∈ vocabulary) := by
  refine ⟨by decide, ⟨by decide, by decide, ?_⟩, ⟨by decide, by decide, ?_⟩, fun h => ?_⟩
  · simp [handleCmd, echoOnly]
  · have hq : querySelector samplePage "npc-text" = some 12 := by decide
    simp [handleCmd, echoOnly, speak, fresh, hq, Experience.gsapTo, binaryCount]
  · exact absurd ((h "scan").mpr (by decide)) (by decide)

/-- C10, amended: the help command appends the line `helpText`.  That line
names `whoami`, `skills`, `clear` and `secret`; each of the four is in the
vocabulary and its dispatch does more than the echo: a response line for
`whoami` and `skills`, an emptied log for `clear`, a narration and a camera
request for `secret`.  The commands `help`, `scan` and `0101` are in the
vocabulary and their dispatch does more than the echo as well (the help line,
an animation request and a narration, the effects of `secret`), and the help
line does not name them.  The `.npc-text` node is taken to exist. -/
theorem helpText_listed (s : Experience) (hn : (querySelector s.document "npc-text").isSome) :
    handleCmd "help" s = some
      { s with terminalOutput := write helpText (write "help" s.terminalOutput) } ∧
    ("whoami" ∈ listedNames helpText ∧ "skills" ∈ listedNames helpText ∧
      "clear" ∈ listedNames helpText ∧ "secret" ∈ listedNames helpText) ∧
    ("whoami" ∈ vocabulary ∧ "skills" ∈ vocabulary ∧ "clear" ∈ vocabulary ∧
      "secret" ∈ vocabulary) ∧
    (handleCmd "whoami" s = some
        { s with terminalOutput :=
            write "AIwolfie - Dual-Identity Architect" (write "whoami" s.terminalOutput) } ∧
      handleCmd "skills" s = some
        { s with terminalOutput :=
            (write "VULN: XSS, IDOR, SSRF, RCE, RECON, ASYNC_PY"
              (write "skills" s.terminalOutput)) } ∧
      handleCmd "clear" s = some { s with terminalOutput := [] } ∧
      handleCmd "secret" s = some
        { echoOnly "secret" s with
          spoken := s.spoken ++ ["ACCESS GRANTED. Welcome, Operator. Curiosity confirmed."]
          tweens := s.tweens ++
            [⟨.cameraPosition, [("z", -180)], 3, some "power4.inOut", none⟩] }) ∧
    (handleCmd "whoami" s ≠ some (echoOnly "whoami" s) ∧
      handleCmd "skills" s ≠ some (echoOnly "skills" s) ∧
      handleCmd "clear" s ≠ some (echoOnly "clear" s) ∧
      handleCmd "secret" s ≠ some (echoOnly "secret" s)) ∧
    ("help" ∈ vocabulary ∧ "scan" ∈ vocabulary ∧ "0101" ∈ vocabulary) ∧
    ("help" ∉ listedNames helpText ∧ "scan" ∉ listedNames helpText ∧
      "0101" ∉ listedNames helpText) ∧
    (handleCmd "scan" s = some
        { echoOnly "scan" s with
          tweens := s.tweens ++
            [⟨.binaryMaterials 200, [("opacity", 0.8)], 1, none, some 0.01⟩]
          spoken := s.spoken ++ ["Data strings isolated. 0x0101."] } ∧
      handleCmd "0101" s = some
        { echoOnly "0101" s with
          spoken := s.spoken ++ ["ACCESS GRANTED. Welcome, Operator. Curiosity confirmed."]
          tweens := s.tweens ++
            [⟨.cameraPosition, [("z", -180)], 3, some "power4.inOut", none⟩] }) ∧
    (handleCmd "help" s ≠ some (echoOnly "help" s) ∧
      handleCmd "scan" s ≠ some (echoOnly "scan" s) ∧
      handleCmd "0101" s ≠ some (echoOnly "0101" s)) := by
  obtain ⟨r, hr⟩ := Option.isSome_iff_exists.mp hn
  have e1 : handleCmd "help" s = some
      { s with terminalOutput := write helpText (write "help" s.terminalOutput) } := by
    simp [handleCmd]
  have e2 : handleCmd "whoami" s = some
      { s with terminalOutput :=
          write "AIwolfie - Dual-Identity Architect" (write "whoami" s.terminalOutput) } := by
    simp [handleCmd]
  have e3 : handleCmd "skills" s = some
      { s with terminalOutput :=
          (write "VULN: XSS, IDOR, SSRF, RCE, RECON, ASYNC_PY"
            (write "skills" s.terminalOutput)) } := by
    simp [handleCmd]
  have e4 : handleCmd "clear" s = some { s with terminalOutput := [] } := by
    simp [handleCmd]
  have e5 : handleCmd "secret" s = some
      { echoOnly "secret" s with
        spoken := s.spoken ++ ["ACCESS GRANTED. Welcome, Operator. Curiosity confirmed."]
        tweens := s.tweens ++
          [⟨.cameraPosition, [("z", -180)], 3, some "power4.inOut", none⟩] } := by
    simp [handleCmd, echoOnly, speak, hr, Experience.gsapTo]
  have e6 : handleCmd "scan" s = some
      { echoOnly "scan" s with
        tweens := s.tweens ++
          [⟨.binaryMaterials 200, [("opacity", 0.8)], 1, none, some 0.01⟩]
        spoken := s.spoken ++ ["Data strings isolated. 0x0101."] } := by
    simp [handleCmd, echoOnly, speak, hr, Experience.gsapTo, binaryCount]
  have e7 : handleCmd "0101" s = some
      { echoOnly "0101" s with
        spoken := s.spoken ++ ["ACCESS GRANTED. Welcome, Operator. Curiosity confirmed."]
        tweens := s.tweens ++
          [⟨.cameraPosition, [("z", -180)], 3, some "power4.inOut", none⟩] } := by
    simp [handleCmd, echoOnly, speak, hr, Experience.gsapTo]
  have outNe : ∀ (t : Experience) (cmd : String),
      t.terminalOutput.length ≠ (write cmd s.terminalOutput).length →
      (some t : Option Experience) ≠ some (echoOnly cmd s) := by
    intro t cmd hlen h
    exact hlen (by rw [Option.some.inj h]; rfl)
  have spokenNe : ∀ (t : Experience) (cmd : String), t.spoken.length ≠ s.spoken.length →
      (some t : Option Experience) ≠ some (echoOnly cmd s) := by
    intro t cmd hlen h
    exact hlen (by rw [Option.some.inj h]; rfl)
  refine ⟨e1, by decide, by decide, ⟨e2, e3, e4, e5⟩, ⟨?_, ?_, ?_, ?_⟩, by decide, by decide,
    ⟨e6, e7⟩, ⟨?_, ?_, ?_⟩⟩
  · rw [e2]; exact outNe _ _ (by simp [write])
  · rw [e3]; exact outNe _ _ (by simp [write])
  · rw [e4]; exact outNe _ _ (by simp [write])
  · rw [e5]; exact spokenNe _ _ (by simp [echoOnly])
  · rw [e1]; exact outNe _ _ (by simp [write])
  · rw [e6]; exact spokenNe _ _ (by simp [echoOnly])
  · rw [e7]; exact spokenNe _ _ (by simp [echoOnly])

/-- Witness of the amended C10 on the fresh sample page. -/
theorem helpText_listed_witness :
    (querySelector (fresh samplePage "" []).document "npc-text").isSome ∧
    handleCmd "secret" (fresh samplePage "" []) = some
      { echoOnly "secret" (fresh samplePage "" []) with
        spoken := (fresh samplePage "" []).spoken ++
          ["ACCESS GRANTED. Welcome, Operator. Curiosity confirmed."]
        tweens := (fresh samplePage "" []).tweens ++
          [⟨.cameraPosition, [("z", -180)], 3, some "power4.inOut", none⟩] } ∧
    handleCmd "scan" (fresh samplePage "" []) ≠ some (echoOnly "scan" (fresh samplePage "" [])) :=
  ⟨by decide, (helpText_listed (fresh samplePage "" []) (by decide)).2.2.2.1.2.2.2,
    (helpText_listed (fresh samplePage "" []) (by decide)).2.2.2.2.2.2.2.2.2.1⟩

end Mysite
